import Mathlib

/-!
# ATC3DG tracker driver (`src/atclib.cpp`): codec, error channel and session

A shallow embedding of the `PointATC3DG` class.  Machine integers are natural
numbers holding the two's-complement bit pattern (`int` = 32 bits, `short` = 16
bits); the `double` arithmetic is carried out over exact rationals.  The USB bus
is a script of read events plus a function giving the status of every write.
-/

namespace ATC3DG

/-! ## Machine integers -/

/-- One element of the `char` buffers `dataout` / `datain`, as the raw wire byte. -/
abbrev Byte := Fin 256

/-- Integer promotion of a `char` to `int`, as a 32-bit two's-complement word.
`charSigned` says whether plain `char` is signed on the platform (the buffers
are plain `char`, since they are handed to `usb_bulk_read` / `usb_bulk_write`). -/
def promote (charSigned : Bool) (b : Byte) : Nat :=
  if charSigned && decide (128 ≤ b.val) then b.val + (2 ^ 32 - 256) else b.val

/-- Left shift `w << n` of a 32-bit word. -/
def shl32 (w n : Nat) : Nat := (w <<< n) % 2 ^ 32

/-- The signed value of a 32-bit word (`int`). -/
def sval32 (w : Nat) : Int := if w < 2 ^ 31 then (w : Int) else (w : Int) - 2 ^ 32

/-- The signed value of a 16-bit word (`short`). -/
def sval16 (w : Nat) : Int := if w < 2 ^ 15 then (w : Int) else (w : Int) - 2 ^ 16

/-- Conversion of an `int` word to `short`: the low 16 bits are kept. -/
def toShort (w : Nat) : Nat := w % 2 ^ 16

/-- Conversion of an `int` value to `char`: the low 8 bits are kept. -/
def toChar (v : Int) : Byte := ⟨(v % 256).toNat, by omega⟩

/-- The value of a `char` after promotion to `int`. -/
def charToInt (charSigned : Bool) (b : Byte) : Int := sval32 (promote charSigned b)

/-! ## Sample fields -/

/-- The `int` expression `((datain[i] << 7) | (datain[i-1] & 0x7f)) << 2`
with `hi = datain[i]`, `lo = datain[i-1]`, as a 32-bit word.  Both buffer elements
are promoted to `int` first; shifts act on the two's-complement pattern. -/
def unpackExpr (charSigned : Bool) (lo hi : Byte) : Nat :=
  shl32 ((shl32 (promote charSigned hi) 7) ||| (promote charSigned lo &&& 0x7f)) 2

/-- The bit pattern stored when the expression is assigned to a `short`. -/
def shortWord (charSigned : Bool) (lo hi : Byte) : Nat :=
  toShort (unpackExpr charSigned lo hi)

/-- The value of a `short` variable assigned from the expression
(`nX`, `nAzimuth`, `sMat[i]`, `q[i]`, ...). -/
def fieldShort (charSigned : Bool) (lo hi : Byte) : Int :=
  sval16 (shortWord charSigned lo hi)

/-- The value of an `int` variable assigned from the expression
(`nX`, `nY`, `nZ` of `getCoordinatesMatrix`). -/
def fieldInt (charSigned : Bool) (lo hi : Byte) : Int :=
  sval32 (unpackExpr charSigned lo hi)

/-! ## Conversion constants -/

/-- Word to float. -/
def WTF : ℚ := 1 / 32768

/-- Degrees per unit of an angle word. -/
def ANGK : ℚ := 180 * WTF

def INCH_TO_METER : ℚ := 25.4 / 1000.0

def POSK36 : ℚ := 36 * WTF * INCH_TO_METER

def POSK72 : ℚ := 72 * WTF * INCH_TO_METER

/-! ## Protocol constants -/

def POINT : Byte := 0x42
def EXAMINE_VALUE : Byte := 0x4F
def CHANGE_VALUE : Byte := 0x50
def POS_MAT : Byte := 0x5A
def POS_QUAT : Byte := 0x5D
def BIRD_POSITION_SCALING : Byte := 0x03
def MEASUREMENT_RATE : Byte := 0x07
def BIRD_ERROR_CODE : Byte := 0x0A
def SENSOR_SERIAL_NUMBER : Byte := 0x1A
def TRANSMITTER_SERIAL_NUMBER : Byte := 0x1B
def SUDDEN_OUTPUT_CHANGE_LOCK : Byte := 0x0E
def FBB_AUTO_CONFIGURATION : Byte := 0x32

/-! ## The session object and the simulated bus -/

/-- What one call of `usb_bulk_read` does: it delivers some bytes (possibly none)
and returns their number, or it returns the negative status `-(e+1)`. -/
inductive ReadEvent where
  | data (bytes : List Byte)
  | fail (e : Nat)

/-- The members of a `PointATC3DG` object together with the bus it talks to.
* `isOk`, `posk`, `ret`, `dataout`, `datain`: the data members of the class;
* `wr k`: the value the `k`-th call of `usb_bulk_write` returns (counted from 0);
* `rd`: what the coming calls of `usb_bulk_read` do, in order; once the script
  is used up every further read delivers zero bytes;
* `sent`: the frames handed to `usb_bulk_write` so far, oldest first;
* `nread`: the number of `usb_bulk_read` calls made so far;
* `errs`: the values passed to `error()` so far, oldest first. -/
structure Session where
  isOk : Bool
  posk : ℚ
  ret : Int
  dataout : Nat → Byte
  datain : Nat → Byte
  wr : Nat → Int
  rd : List ReadEvent
  sent : List (List Byte)
  nread : Nat
  errs : List Int

/-- How a member function ends: it returns `v`, the process is terminated by
`exit(code)`, or the `read` loop spins for ever on zero-length reads. -/
inductive Outcome (α : Type) where
  | done (v : α) (s : Session)
  | exited (code : Int) (s : Session)
  | blocked (s : Session)

/-- The session at the end of the run. -/
def Outcome.state {α : Type} : Outcome α → Session
  | .done _ s => s
  | .exited _ s => s
  | .blocked s => s

/-- The value handed back to the caller, when the function returns. -/
def Outcome.value? {α : Type} : Outcome α → Option α
  | .done v _ => some v
  | .exited _ _ => none
  | .blocked _ => none

/-- Sequencing: continue with `f` when the first part returned. -/
def Outcome.bind {α β : Type} (o : Outcome α) (f : α → Session → Outcome β) : Outcome β :=
  match o with
  | .done v s => f v s
  | .exited c s => .exited c s
  | .blocked s => .blocked s

/-- Change the returned value, keeping the way the run ended. -/
def Outcome.map {α β : Type} (f : α → β) : Outcome α → Outcome β
  | .done v s => .done (f v) s
  | .exited c s => .exited c s
  | .blocked s => .blocked s

/-- Change the final session, keeping the way the run ended. -/
def Outcome.mapState {α : Type} (f : Session → Session) : Outcome α → Outcome α
  | .done v s => .done v (f s)
  | .exited c s => .exited c (f s)
  | .blocked s => .blocked (f s)

/-- The assignment `buf[i] = v`. -/
def setAt (buf : Nat → Byte) (i : Nat) (v : Byte) : Nat → Byte :=
  fun j => if j = i then v else buf j

/-- The assignment `dataout[i] = v`. -/
def setOut (i : Nat) (v : Byte) (s : Session) : Session :=
  { s with dataout := setAt s.dataout i v }

/-- The first `n` bytes of a buffer. -/
def frame (buf : Nat → Byte) (n : Nat) : List Byte := (List.range n).map buf

/-- A buffer after `bs` has been stored at its start. -/
def overlay (bs : List Byte) (buf : Nat → Byte) : Nat → Byte :=
  fun j => (bs.get? j).getD (buf j)

/-- The member `write(bytes)`: `ret = usb_bulk_write(handle, BIRD_EP_OUT, dataout, bytes, DELAY)`. -/
def write (bytes : Nat) (s : Session) : Session :=
  { s with ret := s.wr s.sent.length, sent := s.sent ++ [frame s.dataout bytes] }

/-- One `ret = usb_bulk_read(handle, BIRD_EP_IN, datain, size, DELAY)` whose
behaviour is `ev`; at most `size` bytes are taken. -/
def usb_bulk_read (size : Nat) (ev : ReadEvent) (s : Session) : Session :=
  match ev with
  | .data bs =>
      { s with ret := ((bs.take size).length : Int),
               datain := overlay (bs.take size) s.datain,
               nread := s.nread + 1 }
  | .fail e => { s with ret := Int.negSucc e, nread := s.nread + 1 }

/-- The direct call `ret = usb_bulk_read(handle, BIRD_EP_IN, datain, 32, DELAY)`
of the constructor: the next event of the script, no retry. -/
def readOnce (size : Nat) (s : Session) : Session :=
  match s.rd with
  | [] => usb_bulk_read size (.data []) s
  | ev :: tl => { usb_bulk_read size ev s with rd := tl }

/-- The loop `do { ret = usb_bulk_read(...); } while (ret == 0);` run against
the events `evs`. -/
def readLoop (bytes : Nat) : List ReadEvent → Session → Outcome Unit
  | [], s => .blocked { s with rd := [] }
  | ev :: tl, s =>
      if (usb_bulk_read bytes ev s).ret = 0 then
        readLoop bytes tl { usb_bulk_read bytes ev s with rd := tl }
      else
        .done () { usb_bulk_read bytes ev s with rd := tl }

/-- The member `read(bytes)`. -/
def read (bytes : Nat) (s : Session) : Outcome Unit := readLoop bytes s.rd s

/-- The member `error(val, msg, ...)`: prints the message and clears `isOk`. -/
def error (val : Int) (s : Session) : Session :=
  { s with isOk := false, errs := s.errs ++ [val] }

/-! ## Error channel -/

/-- The `fatal` flag at the end of the `switch (datain[0])` of
`check_bird_errors`, case by case. -/
def fatalCode : Nat → Bool
  | 1 => true
  | 2 => true
  | 3 => false
  | 4 => false
  | 5 => false
  | 6 => false
  | 7 => false
  | 8 => false
  | 9 => false
  | 10 => false
  | 11 => false
  | 12 => false
  | 13 => false
  | 14 => false
  | 15 => true
  | 16 => true
  | 17 => false
  | 18 => false
  | 19 => false
  | 20 => true
  | 21 => true
  | 22 => true
  | 23 => true
  | 24 => true
  | 25 => true
  | 26 => true
  | 27 => true
  | 28 => false
  | 29 => false
  | 30 => false
  | 32 => false
  | 33 => false
  | 34 => false
  | 35 => false
  | _ => false

/-- The part of `check_bird_errors` after `read(1)`. -/
def classifyReply (charSigned : Bool) (s : Session) : Outcome Int :=
  if (s.datain 0).val = 0 then
    .done 0 s
  else if fatalCode (s.datain 0).val then
    .exited (charToInt charSigned (s.datain 0)) { s with isOk := false }
  else
    .done (charToInt charSigned (s.datain 0)) s

/-- The member `check_bird_errors()`. -/
def check_bird_errors (charSigned : Bool) (s : Session) : Outcome Int :=
  let s := setOut 0 EXAMINE_VALUE s
  let s := setOut 1 BIRD_ERROR_CODE s
  let s := write 2 s
  (read 1 s).bind fun _ s => classifyReply charSigned s

/-! ## Construction -/

/-- The results of the libusb calls the constructor makes before any bulk
transfer: whether `find_device` found the device, whether `usb_open` gave a
handle, and the return values of the four configuration calls. -/
structure UsbSetup where
  found : Bool
  opened : Bool
  set_configuration : Int
  claim_interface : Int
  set_altinterface : Int
  clear_halt : Int

/-- The end of the constructor, from `write(2); read(2);` of the scaling query on. -/
def queryScaling (charSigned : Bool) (s : Session) : Outcome Unit :=
  let s := setOut 0 EXAMINE_VALUE s
  let s := setOut 1 BIRD_POSITION_SCALING s
  let s := write 2 s
  (read 2 s).bind fun _ s =>
    if s.ret < 0 then
      .done () (error s.ret s)
    else
      let s := { s with posk := POSK36 }
      let s := if (s.datain 0).val = 1 then { s with posk := POSK72 } else s
      (check_bird_errors charSigned s).map fun _ => ()

/-- The constructor `PointATC3DG::PointATC3DG`, run on an object whose members
hold whatever `s` holds (only `isOk` is initialised, to `true`). -/
def construct (charSigned : Bool) (u : UsbSetup) (s : Session) : Outcome Unit :=
  let s := { s with isOk := true }
  if !u.found then .done () (error 1 s)
  else if !u.opened then .done () (error 2 s)
  else
    let s := { s with ret := u.set_configuration }
    if s.ret < 0 then .done () (error s.ret s)
    else
      let s := { s with ret := u.claim_interface }
      if s.ret < 0 then .done () (error s.ret s)
      else
        let s := { s with ret := u.set_altinterface }
        if s.ret < 0 then .done () (error s.ret s)
        else
          let s := { s with ret := u.clear_halt }
          if s.ret < 0 then .done () (error s.ret s)
          else
            let s := readOnce 32 s
            let s := setOut 0 CHANGE_VALUE s
            let s := setOut 1 FBB_AUTO_CONFIGURATION s
            let s := setOut 2 0x01 s
            let s := write 3 s
            if s.ret < 0 then .done () (error s.ret s)
            else queryScaling charSigned s

/-! ## Setters -/

def setSuddenOutputChangeLock (charSigned : Bool) (iSensorId : Int) (s : Session) :
    Outcome Int :=
  let s := setOut 0 (toChar (0xf1 + iSensorId)) s
  let s := setOut 1 CHANGE_VALUE s
  let s := setOut 2 SUDDEN_OUTPUT_CHANGE_LOCK s
  let s := setOut 3 0x01 s
  let s := write 4 s
  check_bird_errors charSigned s

def setSensorQuaternion (charSigned : Bool) (iSensorId : Int) (s : Session) : Outcome Int :=
  let s := setOut 0 (toChar (0xf1 + iSensorId)) s
  let s := setOut 1 POS_QUAT s
  let s := write 2 s
  check_bird_errors charSigned s

def setSensorRotMat (charSigned : Bool) (iSensorId : Int) (s : Session) : Outcome Int :=
  let s := setOut 0 (toChar (0xf1 + iSensorId)) s
  let s := setOut 1 POS_MAT s
  let s := write 2 s
  check_bird_errors charSigned s

def setSensorTopHemisphere (charSigned : Bool) (_iSensorId : Int) (s : Session) :
    Outcome Int :=
  check_bird_errors charSigned s

def setSensorHemisphere (charSigned : Bool) (_iSensorId : Int) (_cSphereId : Byte)
    (s : Session) : Outcome Int :=
  check_bird_errors charSigned s

/-- Conversion of a `double` to an integer type: the fraction is discarded
(rounding toward zero). -/
def truncToInt (x : ℚ) : Int := if 0 ≤ x then ⌊x⌋ else ⌈x⌉

/-- The bit pattern of a `short` holding the integer `v` (low 16 bits). -/
def shortOfInt (v : Int) : Nat := (v % 2 ^ 16).toNat

/-- Promotion of a `short` to `int`: sign extension of the 16-bit word to 32 bits. -/
def sext16 (w : Nat) : Nat := if w < 2 ^ 15 then w else w + (2 ^ 32 - 2 ^ 16)

/-- Arithmetic right shift `w >> n` of a signed 32-bit word. -/
def sar32 (w n : Nat) : Nat :=
  if w < 2 ^ 31 then w >>> n else (w >>> n) + (2 ^ 32 - 2 ^ (32 - n))

/-- The conversion `(char) w` of an `int` word. -/
def charOfWord (w : Nat) : Byte := ⟨w % 256, Nat.mod_lt _ (by norm_num)⟩

def setMeasurementRate (charSigned : Bool) (dRate : ℚ) (s : Session) : Outcome Int :=
  let sRate := shortOfInt (truncToInt (dRate * 256))
  let s := setOut 0 CHANGE_VALUE s
  let s := setOut 1 MEASUREMENT_RATE s
  let s := setOut 2 (charOfWord (sext16 sRate &&& 0xff)) s
  let s := setOut 3 (charOfWord (sar32 (sext16 sRate) 8)) s
  let s := write 4 s
  check_bird_errors charSigned s

/-! ## Presence queries -/

/-- The body of the loop of `getNumberOfSensors`, run for the values of `i`
listed, starting from the count `nSensors`. -/
def probeSensors : List Nat → Int → Session → Outcome Int
  | [], nSensors, s => .done nSensors s
  | i :: more, nSensors, s =>
      match read 2 (write 3 (setOut 2 SENSOR_SERIAL_NUMBER (setOut 1 EXAMINE_VALUE
              (setOut 0 (toChar (0xf1 + (i : Int))) s)))) with
      | .done _ s =>
          if s.ret < 0 then probeSensors more nSensors (error s.ret s)
          else if (s.datain 0).val ≠ 0 ∨ (s.datain 1).val ≠ 0 then
            probeSensors more (nSensors + 1) s
          else probeSensors more nSensors s
      | .exited c s => .exited c s
      | .blocked s => .blocked s

/-- The member `getNumberOfSensors()`: `for (char i = 0x00; i < 0x04; ++i)`. -/
def getNumberOfSensors (s : Session) : Outcome Int :=
  probeSensors [0, 1, 2, 3] 0 s

def transmitterAttached (s : Session) : Outcome Bool :=
  let s := setOut 0 EXAMINE_VALUE s
  let s := setOut 1 TRANSMITTER_SERIAL_NUMBER s
  let s := write 2 s
  (read 2 s).bind fun _ s =>
    if s.ret < 0 then .done false (error s.ret s)
    else if (s.datain 0).val ≠ 0 ∨ (s.datain 1).val ≠ 0 then .done true s
    else .done false s

def sensorAttached (iSensorId : Int) (s : Session) : Outcome Bool :=
  let s := setOut 0 (toChar (0xf1 + iSensorId)) s
  let s := setOut 1 EXAMINE_VALUE s
  let s := setOut 2 SENSOR_SERIAL_NUMBER s
  let s := write 3 s
  (read 2 s).bind fun _ s =>
    if s.ret < 0 then .done false (error s.ret s)
    else if (s.datain 0).val ≠ 0 ∨ (s.datain 1).val ≠ 0 then .done true s
    else .done false s

/-! ## Pose queries -/

/-- The six `double&` arguments of `getCoordinatesAngles`. -/
structure EulerOut where
  dX : ℚ
  dY : ℚ
  dZ : ℚ
  dAzimuth : ℚ
  dElevation : ℚ
  dRoll : ℚ

/-- The `double&` arguments and the array `pMat` / `quat` of the other two queries. -/
structure ArrayOut where
  dX : ℚ
  dY : ℚ
  dZ : ℚ
  arr : List ℚ

/-- An array after `vals` has been stored in its first elements. -/
def storeArr (vals : List ℚ) (arr : List ℚ) : List ℚ := vals ++ arr.drop vals.length

def getCoordinatesAngles (charSigned : Bool) (iSensorId : Int) (out : EulerOut)
    (s : Session) : Outcome (Int × EulerOut) :=
  let s := setOut 0 (toChar (0xf1 + iSensorId)) s
  let s := setOut 1 POINT s
  let s := write 2 s
  (read 12 s).bind fun _ s =>
    if s.ret = 12 then
      let nX := fieldShort charSigned (s.datain 0) (s.datain 1)
      let nY := fieldShort charSigned (s.datain 2) (s.datain 3)
      let nZ := fieldShort charSigned (s.datain 4) (s.datain 5)
      let nAzimuth := fieldShort charSigned (s.datain 6) (s.datain 7)
      let nElevation := fieldShort charSigned (s.datain 8) (s.datain 9)
      let nRoll := fieldShort charSigned (s.datain 10) (s.datain 11)
      let out : EulerOut :=
        { dX := nX * s.posk, dY := nY * s.posk, dZ := nZ * s.posk,
          dAzimuth := nAzimuth * ANGK, dElevation := nElevation * ANGK,
          dRoll := nRoll * ANGK }
      (check_bird_errors charSigned s).map fun r => (r, out)
    else
      .done (s.ret, out) (error s.ret s)

/-- The loop `for (int i = 7; i < n; i += 2, ++dataptr)` filling a `short`
array, for the values of `i` listed. -/
def unpackShorts (charSigned : Bool) (datain : Nat → Byte) (idx : List Nat) : List Int :=
  idx.map fun i => fieldShort charSigned (datain (i - 1)) (datain i)

def getCoordinatesMatrix (charSigned : Bool) (iSensorId : Int) (out : ArrayOut)
    (s : Session) : Outcome (Int × ArrayOut) :=
  let s := setOut 0 (toChar (0xf1 + iSensorId)) s
  let s := setOut 1 POINT s
  let s := write 2 s
  (read 24 s).bind fun _ s =>
    if s.ret = 24 then
      let nX := fieldInt charSigned (s.datain 0) (s.datain 1)
      let nY := fieldInt charSigned (s.datain 2) (s.datain 3)
      let nZ := fieldInt charSigned (s.datain 4) (s.datain 5)
      let sMat := unpackShorts charSigned s.datain [7, 9, 11, 13, 15, 17, 19, 21, 23]
      let out : ArrayOut :=
        { dX := nX * s.posk, dY := nY * s.posk, dZ := nZ * s.posk,
          arr := storeArr (sMat.map fun v => (v : ℚ) * WTF) out.arr }
      (check_bird_errors charSigned s).map fun r => (r, out)
    else
      .done (s.ret, out) (error s.ret s)

def getCoordinatesQuaternion (charSigned : Bool) (iSensorId : Int) (out : ArrayOut)
    (s : Session) : Outcome (Int × ArrayOut) :=
  let s := setOut 0 (toChar (0xf1 + iSensorId)) s
  let s := setOut 1 POINT s
  let s := write 2 s
  (read 14 s).bind fun _ s =>
    if s.ret = 14 then
      let nX := fieldShort charSigned (s.datain 0) (s.datain 1)
      let nY := fieldShort charSigned (s.datain 2) (s.datain 3)
      let nZ := fieldShort charSigned (s.datain 4) (s.datain 5)
      let q := unpackShorts charSigned s.datain [7, 9, 11, 13]
      let out : ArrayOut :=
        { dX := nX * s.posk, dY := nY * s.posk, dZ := nZ * s.posk,
          arr := storeArr (q.map fun v => (v : ℚ) * WTF) out.arr }
      (check_bird_errors charSigned s).map fun r => (r, out)
    else
      .done (s.ret, out) (error s.ret s)

/-! ## The public operations as one family -/

/-- A call of a public member function other than `ok` / `operator!`. -/
inductive Op where
  | setSuddenOutputChangeLock (iSensorId : Int)
  | setSensorQuaternion (iSensorId : Int)
  | setSensorRotMat (iSensorId : Int)
  | setSensorTopHemisphere (iSensorId : Int)
  | setSensorHemisphere (iSensorId : Int) (cSphereId : Byte)
  | setMeasurementRate (dRate : ℚ)
  | getNumberOfSensors
  | getCoordinatesAngles (iSensorId : Int) (out : EulerOut)
  | getCoordinatesMatrix (iSensorId : Int) (out : ArrayOut)
  | getCoordinatesQuaternion (iSensorId : Int) (out : ArrayOut)
  | transmitterAttached
  | sensorAttached (iSensorId : Int)
  | check_bird_errors

/-- What a call hands back. -/
inductive Value where
  | int (r : Int)
  | bool (b : Bool)
  | euler (r : Int) (out : EulerOut)
  | array (r : Int) (out : ArrayOut)

/-- Running a call. -/
def Op.run (charSigned : Bool) : Op → Session → Outcome Value
  | .setSuddenOutputChangeLock i, s => (ATC3DG.setSuddenOutputChangeLock charSigned i s).map .int
  | .setSensorQuaternion i, s => (ATC3DG.setSensorQuaternion charSigned i s).map .int
  | .setSensorRotMat i, s => (ATC3DG.setSensorRotMat charSigned i s).map .int
  | .setSensorTopHemisphere i, s => (ATC3DG.setSensorTopHemisphere charSigned i s).map .int
  | .setSensorHemisphere i c, s => (ATC3DG.setSensorHemisphere charSigned i c s).map .int
  | .setMeasurementRate r, s => (ATC3DG.setMeasurementRate charSigned r s).map .int
  | .getNumberOfSensors, s => (ATC3DG.getNumberOfSensors s).map .int
  | .getCoordinatesAngles i out, s =>
      (ATC3DG.getCoordinatesAngles charSigned i out s).map fun v => .euler v.1 v.2
  | .getCoordinatesMatrix i out, s =>
      (ATC3DG.getCoordinatesMatrix charSigned i out s).map fun v => .array v.1 v.2
  | .getCoordinatesQuaternion i out, s =>
      (ATC3DG.getCoordinatesQuaternion charSigned i out s).map fun v => .array v.1 v.2
  | .transmitterAttached, s => (ATC3DG.transmitterAttached s).map .bool
  | .sensorAttached i, s => (ATC3DG.sensorAttached i s).map .bool
  | .check_bird_errors, s => (ATC3DG.check_bird_errors charSigned s).map .int

/-- The member `ok()`. -/
def ok (s : Session) : Bool := s.isOk

/-! ## Auxiliary definitions used in the statements -/

/-- The session right after a `read(n)` that went through `k` zero-length reads
and then met the event `ev`, the script continuing with `tl`. -/
def afterRead (n k : Nat) (ev : ReadEvent) (tl : List ReadEvent) (s : Session) : Session :=
  { usb_bulk_read n ev s with rd := tl, nread := s.nread + k + 1 }

/-- The value `usb_bulk_read` returns for the event `ev` when `n` bytes are asked for. -/
def status (n : Nat) : ReadEvent → Int
  | .data bs => ((bs.take n).length : Int)
  | .fail e => Int.negSucc e

/-- The session on which `check_bird_errors` runs its `read(1)`. -/
def errorQuery (s : Session) : Session :=
  write 2 (setOut 1 BIRD_ERROR_CODE (setOut 0 EXAMINE_VALUE s))

/-- The session on which a pose query runs its `read`. -/
def pointQuery (iSensorId : Int) (s : Session) : Session :=
  write 2 (setOut 1 POINT (setOut 0 (toChar (0xf1 + iSensorId)) s))

/-- The session with its `isOk` flag cleared. -/
def clearOk (s : Session) : Session := { s with isOk := false }

/-- The members a bulk read never touches. -/
def sameButRead (s t : Session) : Prop :=
  t.isOk = s.isOk ∧ t.posk = s.posk ∧ t.sent = s.sent ∧ t.dataout = s.dataout ∧
  t.wr = s.wr ∧ t.errs = s.errs

/-- Whether a serial-number read succeeded with two bytes that are not both zero. -/
def serialNonzero : ReadEvent → Bool
  | .data [x, y] => decide (x.val ≠ 0 ∨ y.val ≠ 0)
  | _ => false

/-- The frame `getNumberOfSensors` writes for the loop value `i`. -/
def probeFrame (i : Nat) : List Byte :=
  [toChar (0xf1 + (i : Int)), EXAMINE_VALUE, SENSOR_SERIAL_NUMBER]

/-- A bus like `quiet 2 rd` except that the very first write fails with status -1. -/
def firstWriteFails (rd : List ReadEvent) : Session :=
  { isOk := true, posk := POSK36, ret := 0, dataout := fun _ => 0, datain := fun _ => 0,
    wr := fun k => if k = 0 then -1 else 2, rd := rd, sent := [], nread := 0, errs := [] }

/-- The scale is the same in `t` as in `s` and no frame of the log was dropped. -/
def keeps (s t : Session) : Prop := t.posk = s.posk ∧ s.sent.length ≤ t.sent.length

/-- The scale is the same in `t` as in `s` and at least one frame was written. -/
def grows (s t : Session) : Prop := t.posk = s.posk ∧ s.sent.length < t.sent.length

/-- A setup in which the device is found and every configuration call succeeds. -/
def goodSetup : UsbSetup :=
  { found := true, opened := true, set_configuration := 0, claim_interface := 0,
    set_altinterface := 0, clear_halt := 0 }

/-- A freshly allocated object on a quiet bus: every write reports `len` bytes
written, the read script is `rd`. -/
def quiet (len : Int) (rd : List ReadEvent) : Session :=
  { isOk := true, posk := POSK36, ret := 0, dataout := fun _ => 0, datain := fun _ => 0,
    wr := fun _ => len, rd := rd, sent := [], nread := 0, errs := [] }

/-! ## Codec lemmas -/

theorem promote_and_7f (cs : Bool) (b : Byte) : promote cs b &&& 0x7f = b.val % 128 := by
  have h : (0x7f : Nat) = 2 ^ 7 - 1 := by norm_num
  rw [h, Nat.and_pow_two_sub_one_eq_mod]
  unfold promote
  split <;> omega

theorem unpackExpr_eq (cs : Bool) (lo hi : Byte) :
    unpackExpr cs lo hi = (promote cs hi * 512 + (lo.val % 128) * 4) % 2 ^ 32 := by
  unfold unpackExpr shl32
  rw [promote_and_7f, Nat.shiftLeft_eq, Nat.shiftLeft_eq]
  have hlt : lo.val % 128 < 2 ^ 7 := by omega
  have hor := Nat.mul_add_lt_is_or hlt ((promote cs hi * 2 ^ 7) % 2 ^ 32 / 2 ^ 7)
  have hdvd : 2 ^ 7 * ((promote cs hi * 2 ^ 7) % 2 ^ 32 / 2 ^ 7)
      = (promote cs hi * 2 ^ 7) % 2 ^ 32 := by
    omega
  rw [hdvd] at hor
  rw [← hor]
  omega

theorem shortWord_eq (cs : Bool) (lo hi : Byte) :
    shortWord cs lo hi = (hi.val % 128) * 512 + (lo.val % 128) * 4 := by
  unfold shortWord toShort
  rw [unpackExpr_eq]
  have hb := hi.isLt
  unfold promote
  split <;> omega

theorem and_7f (n : Nat) : n &&& 0x7f = n % 128 := by
  have h : (0x7f : Nat) = 2 ^ 7 - 1 := by norm_num
  rw [h, Nat.and_pow_two_sub_one_eq_mod]

theorem and_3 (n : Nat) : n &&& 3 = n % 4 := by
  have h : (3 : Nat) = 2 ^ 2 - 1 := by norm_num
  rw [h, Nat.and_pow_two_sub_one_eq_mod]

theorem fieldShort_eq (cs : Bool) (lo hi : Byte) :
    fieldShort cs lo hi =
      if hi.val % 128 < 64 then (((hi.val % 128) * 512 + (lo.val % 128) * 4 : Nat) : Int)
      else (((hi.val % 128) * 512 + (lo.val % 128) * 4 : Nat) : Int) - 65536 := by
  unfold fieldShort sval16
  rw [shortWord_eq]
  split <;> split <;> omega

/-! ## C1 -/

example : fieldShort true 0x7f 0x3f = 32764 := by decide
example : fieldShort true 0x00 0x40 = -32768 := by decide
example : fieldShort false 0xff 0xff = -4 := by decide

/-- C1: for every pair of wire bytes `(lo, hi)` the value `v` stored in a `short`
by `((hi << 7) | (lo & 0x7f)) << 2` keeps its 14 meaningful bits:
`(v >> 2) & 0x7f` is `lo & 0x7f`, `(v >> 9) & 0x7f` is `hi & 0x7f`, the two lowest
bits are 0; this holds on the 16-bit pattern and on the signed value, which lies
in the `short` range; the value depends on `(lo, hi)` only, not on whether
`char` is signed. -/
theorem fieldShort_roundtrip (cs : Bool) (lo hi : Byte) :
    (shortWord cs lo hi >>> 2) &&& 0x7f = lo.val &&& 0x7f ∧
    (shortWord cs lo hi >>> 9) &&& 0x7f = hi.val &&& 0x7f ∧
    shortWord cs lo hi &&& 3 = 0 ∧
    (fieldShort cs lo hi >>> (2 : Nat)) % 128 = ((lo.val &&& 0x7f : Nat) : Int) ∧
    (fieldShort cs lo hi >>> (9 : Nat)) % 128 = ((hi.val &&& 0x7f : Nat) : Int) ∧
    fieldShort cs lo hi % 4 = 0 ∧
    -32768 ≤ fieldShort cs lo hi ∧ fieldShort cs lo hi < 32768 ∧
    fieldShort cs lo hi = fieldShort (!cs) lo hi := by
  have hv := fieldShort_eq cs lo hi
  have hv' := fieldShort_eq (!cs) lo hi
  have hw := shortWord_eq cs lo hi
  simp only [and_7f, and_3, Nat.shiftRight_eq_div_pow, Int.shiftRight_eq_div_pow]
  refine ⟨by omega, by omega, by omega, ?_, ?_, ?_, ?_, ?_, ?_⟩
  · split at hv <;> (rw [hv]; push_cast; omega)
  · split at hv <;> (rw [hv]; push_cast; omega)
  · split at hv <;> omega
  · split at hv <;> omega
  · split at hv <;> omega
  · rw [hv, hv']

/-! ## The read loop -/

theorem overlay_nil (buf : Nat → Byte) : overlay [] buf = buf := by
  funext j
  simp [overlay]

theorem readLoop_skip (n : Nat) (ev : ReadEvent) (tl : List ReadEvent)
    (k : Nat) (s : Session) (hne : (usb_bulk_read n ev s).ret ≠ 0) :
    readLoop n (List.replicate k (ReadEvent.data []) ++ ev :: tl) s
      = Outcome.done () (afterRead n k ev tl s) := by
  induction k generalizing s with
  | zero =>
      cases ev <;> simp_all [readLoop, afterRead, usb_bulk_read]
  | succ k ih =>
      have h0 : (usb_bulk_read n (ReadEvent.data []) s).ret = 0 := by
        simp [usb_bulk_read]
      rw [List.replicate_succ, List.cons_append, readLoop, if_pos h0, ih]
      · cases ev <;>
          simp [afterRead, usb_bulk_read, overlay_nil, Nat.add_assoc, Nat.add_comm 1 k]
      · cases ev <;> simp_all [usb_bulk_read]

theorem read_reply (n k : Nat) (ev : ReadEvent) (tl : List ReadEvent) (s : Session)
    (hrd : s.rd = List.replicate k (ReadEvent.data []) ++ ev :: tl)
    (hne : (usb_bulk_read n ev s).ret ≠ 0) :
    read n s = Outcome.done () (afterRead n k ev tl s) := by
  unfold read
  rw [hrd]
  exact readLoop_skip n ev tl k s hne

theorem usb_bulk_read_ret (n : Nat) (ev : ReadEvent) (s : Session) :
    (usb_bulk_read n ev s).ret = status n ev := by
  cases ev <;> rfl

theorem read_event (n k : Nat) (ev : ReadEvent) (tl : List ReadEvent) (s : Session)
    (hrd : s.rd = List.replicate k (ReadEvent.data []) ++ ev :: tl)
    (hne : status n ev ≠ 0) :
    read n s = Outcome.done () (afterRead n k ev tl s) :=
  read_reply n k ev tl s hrd (by rw [usb_bulk_read_ret]; exact hne)

/-! ## The error channel -/

theorem check_bird_errors_event (cs : Bool) (s : Session) (k : Nat) (ev : ReadEvent)
    (tl : List ReadEvent)
    (hrd : s.rd = List.replicate k (ReadEvent.data []) ++ ev :: tl)
    (hne : status 1 ev ≠ 0) :
    check_bird_errors cs s = classifyReply cs (afterRead 1 k ev tl (errorQuery s)) := by
  have h := read_event 1 k ev tl (errorQuery s) (by simpa [errorQuery, write, setOut] using hrd) hne
  unfold check_bird_errors
  simp only [errorQuery] at h ⊢
  simp only [h, Outcome.bind]

set_option maxRecDepth 100000 in
theorem fatalCode_iff (c : Byte) :
    fatalCode c.val = true ↔ c.val ∈ [1, 2, 15, 16, 20, 21, 22, 23, 24, 25, 26, 27] := by
  revert c
  decide

theorem charToInt_small (cs : Bool) (c : Byte) (h : c.val < 128) :
    charToInt cs c = (c.val : Int) := by
  unfold charToInt promote sval32
  have h' : ¬ (128 ≤ c.val) := by omega
  simp [h']
  omega

theorem afterRead_datain_zero (k : Nat) (c : Byte) (rest : List Byte)
    (tl : List ReadEvent) (s : Session) :
    (afterRead 1 k (ReadEvent.data (c :: rest)) tl s).datain 0 = c := by
  simp [afterRead, usb_bulk_read, overlay]

/-! ## C5 -/

/-- C5 (as stated, refuted): when the error-code byte read is 15 nothing is
returned to the caller; the run ends in `exit(15)`. -/
theorem check_bird_errors_fatal_exits :
    (check_bird_errors true (quiet 2 [ReadEvent.data [15]])).value? = none ∧
    ∃ s', check_bird_errors true (quiet 2 [ReadEvent.data [15]]) = Outcome.exited 15 s' := by
  have h := check_bird_errors_event true (quiet 2 [ReadEvent.data [15]]) 0
    (ReadEvent.data [15]) [] rfl (by decide)
  rw [h]
  have hc := afterRead_datain_zero 0 15 [] [] (errorQuery (quiet 2 [ReadEvent.data [15]]))
  constructor
  · simp only [classifyReply, hc]
    rfl
  · simp only [classifyReply, hc]
    exact ⟨_, rfl⟩

/-- C5 (amended): for every error-code byte `c` read by `check_bird_errors` (after
any number of zero-length reads): if `c = 0` it returns 0 and `isOk` is unchanged;
if `c` is one of 1, 2, 15, 16, 20..27 it sets `isOk` to false and ends the process
with `exit(c)`, returning nothing; for every other `c` it returns the `char` value
of `c` (which is `c` for `c < 128`) and `isOk` is unchanged. -/
theorem check_bird_errors_classify (cs : Bool) (s : Session) (k : Nat) (c : Byte)
    (rest : List Byte) (tl : List ReadEvent)
    (hrd : s.rd = List.replicate k (ReadEvent.data []) ++ ReadEvent.data (c :: rest) :: tl) :
    (c.val = 0 →
      (check_bird_errors cs s).value? = some 0 ∧
      (check_bird_errors cs s).state.isOk = s.isOk) ∧
    (c.val ∈ [1, 2, 15, 16, 20, 21, 22, 23, 24, 25, 26, 27] →
      ∃ s', check_bird_errors cs s = Outcome.exited (c.val : Int) s' ∧ s'.isOk = false) ∧
    (c.val ≠ 0 → c.val ∉ [1, 2, 15, 16, 20, 21, 22, 23, 24, 25, 26, 27] →
      (check_bird_errors cs s).value? = some (charToInt cs c) ∧
      (check_bird_errors cs s).state.isOk = s.isOk ∧
      (c.val < 128 → charToInt cs c = (c.val : Int))) := by
  have h := check_bird_errors_event cs s k (ReadEvent.data (c :: rest)) tl hrd
    (by simp [status])
  have hc := afterRead_datain_zero k c rest tl (errorQuery s)
  have hok : (afterRead 1 k (ReadEvent.data (c :: rest)) tl (errorQuery s)).isOk = s.isOk := by
    simp [afterRead, usb_bulk_read, errorQuery, write, setOut]
  rw [h]
  refine ⟨?_, ?_, ?_⟩
  · intro h0
    simp [classifyReply, hc, h0, Outcome.value?, Outcome.state, hok]
  · intro hf
    have hfat := (fatalCode_iff c).mpr hf
    have hne : c.val ≠ 0 := by
      intro h0
      rw [h0] at hfat
      simp [fatalCode] at hfat
    have hsmall : c.val < 128 := by
      simp only [List.mem_cons, List.mem_singleton, List.not_mem_nil, or_false] at hf
      omega
    refine ⟨{ afterRead 1 k (ReadEvent.data (c :: rest)) tl (errorQuery s) with
      isOk := false }, ?_, rfl⟩
    simp only [classifyReply, hc, hne, hfat, if_true, if_false]
    rw [charToInt_small cs c hsmall]
  · intro hne hnf
    have hfat : fatalCode c.val = false := by
      cases hfc : fatalCode c.val
      · rfl
      · exact absurd ((fatalCode_iff c).mp hfc) hnf
    refine ⟨?_, ?_, charToInt_small cs c⟩
    · simp [classifyReply, hc, hne, hfat, Outcome.value?]
    · simp [classifyReply, hc, hne, hfat, Outcome.state, hok]

/-- C5 witness: the byte 31 (an undefined code) is returned as the warning 31. -/
theorem check_bird_errors_classify_witness :
    (quiet 2 [ReadEvent.data [31]]).rd
        = List.replicate 0 (ReadEvent.data []) ++ ReadEvent.data (31 :: []) :: [] ∧
    (check_bird_errors true (quiet 2 [ReadEvent.data [31]])).value? = some 31 :=
  ⟨rfl, ((check_bird_errors_classify true (quiet 2 [ReadEvent.data [31]]) 0 31 [] [] rfl).2.2
      (by decide) (by decide)).1⟩

theorem charToInt_zero (cs : Bool) : charToInt cs 0 = 0 := by
  cases cs <;> decide

theorem check_bird_errors_value (cs : Bool) (s : Session) (k : Nat) (c : Byte)
    (rest : List Byte) (tl : List ReadEvent)
    (hrd : s.rd = List.replicate k (ReadEvent.data []) ++ ReadEvent.data (c :: rest) :: tl)
    (hnf : c.val ∉ [1, 2, 15, 16, 20, 21, 22, 23, 24, 25, 26, 27]) :
    check_bird_errors cs s = Outcome.done (charToInt cs c)
      (afterRead 1 k (ReadEvent.data (c :: rest)) tl (errorQuery s)) := by
  have h := check_bird_errors_event cs s k (ReadEvent.data (c :: rest)) tl hrd
    (by simp [status])
  have hc := afterRead_datain_zero k c rest tl (errorQuery s)
  have hfat : fatalCode c.val = false := by
    cases hfc : fatalCode c.val
    · rfl
    · exact absurd ((fatalCode_iff c).mp hfc) hnf
  rw [h]
  by_cases h0 : c.val = 0
  · have hc0 : c = 0 := Fin.ext h0
    subst hc0
    simp only [classifyReply, hc, charToInt_zero]
    rfl
  · simp [classifyReply, hc, h0, hfat]

/-! ## C2 -/

theorem getCoordinatesAngles_full (cs : Bool) (iSensorId : Int) (out : EulerOut)
    (s : Session) (k : Nat) (b0 b1 b2 b3 b4 b5 b6 b7 b8 b9 b10 b11 : Byte)
    (tl : List ReadEvent)
    (hrd : s.rd = List.replicate k (ReadEvent.data []) ++
      ReadEvent.data [b0, b1, b2, b3, b4, b5, b6, b7, b8, b9, b10, b11] :: tl) :
    getCoordinatesAngles cs iSensorId out s =
      (check_bird_errors cs (afterRead 12 k
          (ReadEvent.data [b0, b1, b2, b3, b4, b5, b6, b7, b8, b9, b10, b11]) tl
          (pointQuery iSensorId s))).map fun r =>
        (r, ({ dX := fieldShort cs b0 b1 * s.posk, dY := fieldShort cs b2 b3 * s.posk,
               dZ := fieldShort cs b4 b5 * s.posk, dAzimuth := fieldShort cs b6 b7 * ANGK,
               dElevation := fieldShort cs b8 b9 * ANGK,
               dRoll := fieldShort cs b10 b11 * ANGK } : EulerOut)) := by
  have h := read_event 12 k (ReadEvent.data [b0, b1, b2, b3, b4, b5, b6, b7, b8, b9, b10, b11])
    tl (pointQuery iSensorId s) (by simpa [pointQuery, write, setOut] using hrd)
    (by simp [status])
  unfold getCoordinatesAngles
  simp only [pointQuery] at h ⊢
  simp only [h, Outcome.bind]
  simp [afterRead, usb_bulk_read, overlay, write, setOut]

theorem Outcome.map_done_inv {α β : Type} (f : α → β) (o : Outcome α) (w : β) (s' : Session)
    (h : o.map f = Outcome.done w s') : ∃ v, o = Outcome.done v s' ∧ f v = w := by
  cases o with
  | done v s =>
      simp only [Outcome.map, Outcome.done.injEq] at h
      exact ⟨v, by rw [h.2], h.1⟩
  | exited c s => simp [Outcome.map] at h
  | blocked s => simp [Outcome.map] at h

/-- C2: for every 12-byte response `b0 .. b11` to the POINT command (met after any
number of zero-length reads) and every scale `posk` of the session, whenever
`getCoordinatesAngles` returns, the outputs are `dX, dY, dZ = field(b0,b1)*posk,
field(b2,b3)*posk, field(b4,b5)*posk` and `dAzimuth, dElevation, dRoll =
field(b6,b7)*ANGK, field(b8,b9)*ANGK, field(b10,b11)*ANGK`, with `ANGK = 180/32768`;
and it does return, with the error code as result, whenever the reply to the closing
error-code query is a code that is not fatal. -/
theorem getCoordinatesAngles_decodes (cs : Bool) (iSensorId : Int) (out : EulerOut)
    (s : Session) (k : Nat) (b0 b1 b2 b3 b4 b5 b6 b7 b8 b9 b10 b11 : Byte)
    (tl : List ReadEvent)
    (hrd : s.rd = List.replicate k (ReadEvent.data []) ++
      ReadEvent.data [b0, b1, b2, b3, b4, b5, b6, b7, b8, b9, b10, b11] :: tl) :
    ANGK = 180 / 32768 ∧
    (∀ r out' s', getCoordinatesAngles cs iSensorId out s = Outcome.done (r, out') s' →
      out'.dX = fieldShort cs b0 b1 * s.posk ∧
      out'.dY = fieldShort cs b2 b3 * s.posk ∧
      out'.dZ = fieldShort cs b4 b5 * s.posk ∧
      out'.dAzimuth = fieldShort cs b6 b7 * ANGK ∧
      out'.dElevation = fieldShort cs b8 b9 * ANGK ∧
      out'.dRoll = fieldShort cs b10 b11 * ANGK) ∧
    (∀ k2 c rest tl2,
      tl = List.replicate k2 (ReadEvent.data []) ++ ReadEvent.data (c :: rest) :: tl2 →
      c.val ∉ [1, 2, 15, 16, 20, 21, 22, 23, 24, 25, 26, 27] →
      ∃ out' s', getCoordinatesAngles cs iSensorId out s
        = Outcome.done (charToInt cs c, out') s') := by
  have hfull := getCoordinatesAngles_full cs iSensorId out s k
    b0 b1 b2 b3 b4 b5 b6 b7 b8 b9 b10 b11 tl hrd
  refine ⟨by norm_num [ANGK, WTF], ?_, ?_⟩
  · intro r out' s' hdone
    rw [hfull] at hdone
    obtain ⟨v, _, hv⟩ := Outcome.map_done_inv _ _ _ _ hdone
    have hout := (Prod.mk.inj hv).2
    rw [← hout]
    exact ⟨rfl, rfl, rfl, rfl, rfl, rfl⟩
  · intro k2 c rest tl2 htl hnf
    have hcb := check_bird_errors_value cs
      (afterRead 12 k (ReadEvent.data [b0, b1, b2, b3, b4, b5, b6, b7, b8, b9, b10, b11]) tl
        (pointQuery iSensorId s)) k2 c rest tl2 (by simpa [afterRead] using htl) hnf
    rw [hfull, hcb]
    exact ⟨_, _, rfl⟩

theorem fieldShort_zero (cs : Bool) : fieldShort cs 0 0 = 0 := by
  cases cs <;> decide

/-- C2 witness: the all-zero 12-byte response, followed by the error code 0, makes
`getCoordinatesAngles` return 0 with all six outputs 0. -/
theorem getCoordinatesAngles_decodes_witness :
    (quiet 2 [ReadEvent.data [0, 0, 0, 0, 0, 0, 0, 0, 0, 0, 0, 0], ReadEvent.data [0]]).rd
      = List.replicate 0 (ReadEvent.data []) ++
        ReadEvent.data [0, 0, 0, 0, 0, 0, 0, 0, 0, 0, 0, 0] :: [ReadEvent.data [0]] ∧
    ∃ s', getCoordinatesAngles true 0 ⟨1, 1, 1, 1, 1, 1⟩
        (quiet 2 [ReadEvent.data [0, 0, 0, 0, 0, 0, 0, 0, 0, 0, 0, 0], ReadEvent.data [0]])
      = Outcome.done (0, ⟨0, 0, 0, 0, 0, 0⟩) s' := by
  refine ⟨rfl, ?_⟩
  have h := getCoordinatesAngles_decodes true 0 ⟨1, 1, 1, 1, 1, 1⟩
    (quiet 2 [ReadEvent.data [0, 0, 0, 0, 0, 0, 0, 0, 0, 0, 0, 0], ReadEvent.data [0]])
    0 0 0 0 0 0 0 0 0 0 0 0 0 [ReadEvent.data [0]] rfl
  obtain ⟨out', s', hdone⟩ := h.2.2 0 0 [] [] rfl (by decide)
  have hf := h.2.1 _ out' s' hdone
  refine ⟨s', ?_⟩
  rw [hdone, charToInt_zero]
  cases out'
  simp only [fieldShort_zero, Int.cast_zero, zero_mul] at hf
  obtain ⟨h1, h2, h3, h4, h5, h6⟩ := hf
  subst h1 h2 h3 h4 h5 h6
  rfl

/-! ## What the read loop and the error query leave alone -/

theorem Outcome.state_map {α β : Type} (f : α → β) (o : Outcome α) :
    (o.map f).state = o.state := by
  cases o <;> rfl

theorem Outcome.bind_state_prop {α β : Type} (P : Session → Prop) (o : Outcome α)
    (f : α → Session → Outcome β) (ho : P o.state)
    (hf : ∀ v t, P t → P (f v t).state) : P (o.bind f).state := by
  cases o with
  | done v t => exact hf v t ho
  | exited c t => exact ho
  | blocked t => exact ho

theorem readLoop_same (n : Nat) (evs : List ReadEvent) (s : Session) :
    sameButRead s (readLoop n evs s).state := by
  induction evs generalizing s with
  | nil => exact ⟨rfl, rfl, rfl, rfl, rfl, rfl⟩
  | cons ev tl ih =>
      have hstep : sameButRead s { usb_bulk_read n ev s with rd := tl } := by
        cases ev <;> exact ⟨rfl, rfl, rfl, rfl, rfl, rfl⟩
      rw [readLoop]
      split
      · obtain ⟨h1, h2, h3, h4, h5, h6⟩ := ih { usb_bulk_read n ev s with rd := tl }
        obtain ⟨g1, g2, g3, g4, g5, g6⟩ := hstep
        exact ⟨h1.trans g1, h2.trans g2, h3.trans g3, h4.trans g4, h5.trans g5, h6.trans g6⟩
      · exact hstep

theorem read_same (n : Nat) (s : Session) : sameButRead s (read n s).state :=
  readLoop_same n s.rd s

theorem classifyReply_posk (cs : Bool) (s : Session) :
    (classifyReply cs s).state.posk = s.posk := by
  unfold classifyReply
  split
  · rfl
  · split <;> rfl

theorem classifyReply_sent (cs : Bool) (s : Session) :
    (classifyReply cs s).state.sent = s.sent := by
  unfold classifyReply
  split
  · rfl
  · split <;> rfl

theorem classifyReply_done_isOk (cs : Bool) (s : Session) (r : Int) (s' : Session)
    (h : classifyReply cs s = Outcome.done r s') : s'.isOk = s.isOk := by
  unfold classifyReply at h
  split at h
  · simp only [Outcome.done.injEq] at h
    rw [← h.2]
  · split at h
    · simp at h
    · simp only [Outcome.done.injEq] at h
      rw [← h.2]

theorem check_bird_errors_posk (cs : Bool) (s : Session) :
    (check_bird_errors cs s).state.posk = s.posk := by
  unfold check_bird_errors
  apply Outcome.bind_state_prop (fun t => t.posk = s.posk)
  · exact (read_same 1 _).2.1
  · intro _ t ht
    rw [classifyReply_posk]
    exact ht

theorem check_bird_errors_sent (cs : Bool) (s : Session) :
    (check_bird_errors cs s).state.sent = s.sent ++ [[EXAMINE_VALUE, BIRD_ERROR_CODE]] := by
  unfold check_bird_errors
  apply Outcome.bind_state_prop
    (fun t => t.sent = s.sent ++ [[EXAMINE_VALUE, BIRD_ERROR_CODE]])
  · rw [(read_same 1 _).2.2.1]
    simp [write, setOut, frame, setAt, List.range_succ]
  · intro _ t ht
    rw [classifyReply_sent]
    exact ht

theorem check_bird_errors_done_isOk (cs : Bool) (s : Session) (r : Int) (s' : Session)
    (h : check_bird_errors cs s = Outcome.done r s') : s'.isOk = s.isOk := by
  unfold check_bird_errors at h
  simp only at h
  have hsame := read_same 1 (write 2 (setOut 1 BIRD_ERROR_CODE (setOut 0 EXAMINE_VALUE s)))
  cases hr : read 1 (write 2 (setOut 1 BIRD_ERROR_CODE (setOut 0 EXAMINE_VALUE s))) with
  | done v t =>
      rw [hr] at h hsame
      simp only [Outcome.bind] at h
      rw [classifyReply_done_isOk cs t r s' h]
      exact hsame.1
  | exited c t => rw [hr] at h; simp [Outcome.bind] at h
  | blocked t => rw [hr] at h; simp [Outcome.bind] at h

/-! ## C3 -/

/-- C3 (the code departs from the claim): on a 24-byte response whose bytes 0..5 are
`00 40 00 00 00 00`, with `posk = POSK36`, `getCoordinatesMatrix` returns
`dX = 32768 * POSK36`, because its `nX` is an `int`, while on the same first six
bytes `getCoordinatesAngles` and `getCoordinatesQuaternion`, whose `nX` is a
`short`, return `dX = -32768 * POSK36`. -/
theorem getCoordinatesMatrix_position_is_int :
    (∃ r arr s', getCoordinatesMatrix true 0 ⟨1, 1, 1, []⟩
        (quiet 2 [ReadEvent.data [0, 0x40, 0, 0, 0, 0, 0, 0, 0, 0, 0, 0,
                                  0, 0, 0, 0, 0, 0, 0, 0, 0, 0, 0, 0], ReadEvent.data [0]])
      = Outcome.done (r, ⟨32768 * POSK36, 0, 0, arr⟩) s') ∧
    (∃ r s', getCoordinatesAngles true 0 ⟨1, 1, 1, 1, 1, 1⟩
        (quiet 2 [ReadEvent.data [0, 0x40, 0, 0, 0, 0, 0, 0, 0, 0, 0, 0], ReadEvent.data [0]])
      = Outcome.done (r, ⟨-32768 * POSK36, 0, 0, 0, 0, 0⟩) s') ∧
    (∃ r arr s', getCoordinatesQuaternion true 0 ⟨1, 1, 1, []⟩
        (quiet 2 [ReadEvent.data [0, 0x40, 0, 0, 0, 0, 0, 0, 0, 0, 0, 0, 0, 0],
                  ReadEvent.data [0]])
      = Outcome.done (r, ⟨-32768 * POSK36, 0, 0, arr⟩) s') ∧
    fieldInt true 0 0x40 = 32768 ∧ fieldShort true 0 0x40 = -32768 ∧
    (32768 * POSK36 : ℚ) ≠ -32768 * POSK36 := by
  have hi : fieldInt true 0 64 = 32768 := by decide
  have hs : fieldShort true 0 64 = -32768 := by decide
  have hi0 : fieldInt true 0 0 = 0 := by decide
  have hs0 : fieldShort true 0 0 = 0 := by decide
  refine ⟨?_, ?_, ?_, hi, hs, ?_⟩
  · simp [getCoordinatesMatrix, read, readLoop, usb_bulk_read, quiet, write, setOut, overlay,
      Outcome.bind, check_bird_errors, classifyReply, Outcome.map, hi, hi0]
  · simp [getCoordinatesAngles, read, readLoop, usb_bulk_read, quiet, write, setOut, overlay,
      Outcome.bind, check_bird_errors, classifyReply, Outcome.map, hs, hs0]
  · simp [getCoordinatesQuaternion, read, readLoop, usb_bulk_read, quiet, write, setOut,
      overlay, Outcome.bind, check_bird_errors, classifyReply, Outcome.map, hs, hs0]
  · norm_num [POSK36, WTF, INCH_TO_METER]

/-! ## C4 -/

theorem getCoordinatesAngles_short (cs : Bool) (iSensorId : Int) (out : EulerOut)
    (s : Session) (k : Nat) (ev : ReadEvent) (tl : List ReadEvent)
    (hrd : s.rd = List.replicate k (ReadEvent.data []) ++ ev :: tl)
    (h0 : status 12 ev ≠ 0) (h12 : status 12 ev ≠ 12) :
    getCoordinatesAngles cs iSensorId out s =
      Outcome.done (status 12 ev, out)
        (error (status 12 ev) (afterRead 12 k ev tl (pointQuery iSensorId s))) := by
  have h := read_event 12 k ev tl (pointQuery iSensorId s)
    (by simpa [pointQuery, write, setOut] using hrd) h0
  have hret : (afterRead 12 k ev tl (pointQuery iSensorId s)).ret = status 12 ev := by
    simp [afterRead, usb_bulk_read_ret]
  unfold getCoordinatesAngles
  simp only [pointQuery] at h hret ⊢
  simp only [h, Outcome.bind, hret, h12, if_false]

/-- C4 (as stated, refuted): an 11-byte response makes `getCoordinatesAngles` return
11 with the outputs untouched, and a completed 12-byte exchange (all-zero response,
then the warning code 11) returns 11 as well, with the same outputs when they were 0
before: the failure result is not distinguishable from it. -/
theorem short_read_result_ambiguous :
    (getCoordinatesAngles true 0 ⟨0, 0, 0, 0, 0, 0⟩
        (quiet 2 [ReadEvent.data [0, 0, 0, 0, 0, 0, 0, 0, 0, 0, 0]])).value?
      = some (11, ⟨0, 0, 0, 0, 0, 0⟩) ∧
    (getCoordinatesAngles true 0 ⟨0, 0, 0, 0, 0, 0⟩
        (quiet 2 [ReadEvent.data [0, 0, 0, 0, 0, 0, 0, 0, 0, 0, 0, 0],
                  ReadEvent.data [11]])).value?
      = some (11, ⟨0, 0, 0, 0, 0, 0⟩) := by
  have hs0 : fieldShort true 0 0 = 0 := by decide
  have hc : charToInt true 11 = 11 := by decide
  constructor
  · rw [getCoordinatesAngles_short true 0 _ _ 0
      (ReadEvent.data [0, 0, 0, 0, 0, 0, 0, 0, 0, 0, 0]) [] rfl (by decide) (by decide)]
    rfl
  · rw [getCoordinatesAngles_full true 0 _ _ 0 0 0 0 0 0 0 0 0 0 0 0 0 [ReadEvent.data [11]] rfl,
      check_bird_errors_value true _ 0 11 [] [] rfl (by decide)]
    simp [Outcome.map, Outcome.value?, hs0, hc]

/-- C4 (amended): when the `read(12)` of a POINT exchange ends (after any number of
zero-length reads) with a return value `n` other than 12, `getCoordinatesAngles`
returns `n`, the transport's return value, which it has also passed to `error()`;
the six outputs are untouched, `isOk` is false afterwards, and nothing was written
or read after the failed read.  A completed 12-byte exchange that returns leaves
`isOk` as it was. -/
theorem getCoordinatesAngles_short_read (cs : Bool) (iSensorId : Int) (out : EulerOut)
    (s : Session) (k : Nat) (ev : ReadEvent) (tl : List ReadEvent)
    (hrd : s.rd = List.replicate k (ReadEvent.data []) ++ ev :: tl)
    (h0 : status 12 ev ≠ 0) (h12 : status 12 ev ≠ 12) :
    (∃ s', getCoordinatesAngles cs iSensorId out s = Outcome.done (status 12 ev, out) s' ∧
      s'.isOk = false ∧ s'.errs = s.errs ++ [status 12 ev] ∧
      s'.sent = s.sent ++ [[toChar (0xf1 + iSensorId), POINT]] ∧
      s'.rd = tl ∧ s'.nread = s.nread + k + 1 ∧ s'.posk = s.posk) ∧
    (∀ (t : Session) (j : Nat) (b0 b1 b2 b3 b4 b5 b6 b7 b8 b9 b10 b11 : Byte)
        (tl' : List ReadEvent) (r : Int) (out' : EulerOut) (t' : Session),
      t.rd = List.replicate j (ReadEvent.data []) ++
        ReadEvent.data [b0, b1, b2, b3, b4, b5, b6, b7, b8, b9, b10, b11] :: tl' →
      getCoordinatesAngles cs iSensorId out t = Outcome.done (r, out') t' →
      t'.isOk = t.isOk) := by
  constructor
  · refine ⟨_, getCoordinatesAngles_short cs iSensorId out s k ev tl hrd h0 h12, ?_⟩
    cases ev <;>
      simp [error, afterRead, usb_bulk_read, pointQuery, write, setOut, frame, setAt,
        List.range_succ]
  · intro t j b0 b1 b2 b3 b4 b5 b6 b7 b8 b9 b10 b11 tl' r out' t' ht hdone
    rw [getCoordinatesAngles_full cs iSensorId out t j b0 b1 b2 b3 b4 b5 b6 b7 b8 b9 b10 b11
      tl' ht] at hdone
    obtain ⟨v, hv, _⟩ := Outcome.map_done_inv _ _ _ _ hdone
    rw [check_bird_errors_done_isOk cs _ v t' hv]
    simp [afterRead, usb_bulk_read, pointQuery, write, setOut]

/-- C4 witness: an 11-byte response on a fresh session. -/
theorem getCoordinatesAngles_short_read_witness :
    (quiet 2 [ReadEvent.data [1, 2, 3, 4, 5, 6, 7, 8, 9, 10, 11]]).rd
      = List.replicate 0 (ReadEvent.data []) ++
        ReadEvent.data [1, 2, 3, 4, 5, 6, 7, 8, 9, 10, 11] :: [] ∧
    status 12 (ReadEvent.data [1, 2, 3, 4, 5, 6, 7, 8, 9, 10, 11]) = 11 ∧
    ∃ s', getCoordinatesAngles true 0 ⟨7, 7, 7, 7, 7, 7⟩
        (quiet 2 [ReadEvent.data [1, 2, 3, 4, 5, 6, 7, 8, 9, 10, 11]])
      = Outcome.done (11, ⟨7, 7, 7, 7, 7, 7⟩) s' ∧ s'.isOk = false := by
  refine ⟨rfl, rfl, ?_⟩
  obtain ⟨s', h, hok, _⟩ := (getCoordinatesAngles_short_read true 0 ⟨7, 7, 7, 7, 7, 7⟩
    (quiet 2 [ReadEvent.data [1, 2, 3, 4, 5, 6, 7, 8, 9, 10, 11]]) 0
    (ReadEvent.data [1, 2, 3, 4, 5, 6, 7, 8, 9, 10, 11]) [] rfl (by decide) (by decide)).1
  exact ⟨s', h, hok⟩

/-! ## C8 -/

theorem probeSensors_count (ids : List Nat) :
    ∀ (evs : List ReadEvent) (nSensors : Int) (s : Session) (tl : List ReadEvent),
      evs.length = ids.length →
      (∀ ev ∈ evs, (∃ e, ev = ReadEvent.fail e) ∨ (∃ x y, ev = ReadEvent.data [x, y])) →
      s.rd = evs ++ tl →
      ∃ s', probeSensors ids nSensors s
          = Outcome.done (nSensors + (evs.countP serialNonzero : Nat)) s' ∧
        s'.sent = s.sent ++ ids.map probeFrame ∧ s'.rd = tl ∧
        s'.nread = s.nread + ids.length := by
  induction ids with
  | nil =>
      intro evs n s tl hlen _ hrd
      have hnil : evs = [] := List.length_eq_zero.mp hlen
      subst hnil
      exact ⟨s, by simp [probeSensors], by simp, by simpa using hrd, by simp⟩
  | cons i more ih =>
      intro evs n s tl hlen hev hrd
      cases evs with
      | nil => simp at hlen
      | cons ev evs' =>
        have hlen' : evs'.length = more.length := by simpa using hlen
        have hev' : ∀ e ∈ evs', (∃ c, e = ReadEvent.fail c) ∨ (∃ x y, e = ReadEvent.data [x, y]) :=
          fun e he => hev e (List.mem_cons_of_mem _ he)
        have hst : status 2 ev ≠ 0 := by
          rcases hev ev (List.mem_cons_self _ _) with ⟨e, rfl⟩ | ⟨x, y, rfl⟩ <;> simp [status]
        have hread := read_event 2 0 ev (evs' ++ tl)
          (write 3 (setOut 2 SENSOR_SERIAL_NUMBER (setOut 1 EXAMINE_VALUE
            (setOut 0 (toChar (0xf1 + (i : Int))) s))))
          (by simpa [write, setOut] using hrd) hst
        rw [probeSensors, hread]
        rcases hev ev (List.mem_cons_self _ _) with ⟨e, rfl⟩ | ⟨x, y, rfl⟩
        · obtain ⟨s', h1, h2, h3, h4⟩ := ih evs' n
            (error (Int.negSucc e) (afterRead 2 0 (ReadEvent.fail e) (evs' ++ tl)
              (write 3 (setOut 2 SENSOR_SERIAL_NUMBER (setOut 1 EXAMINE_VALUE
                (setOut 0 (toChar (0xf1 + (i : Int))) s)))))) tl hlen' hev' rfl
          refine ⟨s', ?_, ?_, h3, ?_⟩
          · simp only [afterRead, usb_bulk_read, Int.negSucc_lt_zero, if_true]
            simpa [afterRead, usb_bulk_read, serialNonzero] using h1
          · rw [h2]
            simp [error, afterRead, usb_bulk_read, write, setOut, probeFrame, frame, setAt,
              List.range_succ]
          · rw [h4]
            simp [error, afterRead, usb_bulk_read, write, setOut]
            omega
        · by_cases hxy : x.val ≠ 0 ∨ y.val ≠ 0
          · obtain ⟨s', h1, h2, h3, h4⟩ := ih evs' (n + 1)
              (afterRead 2 0 (ReadEvent.data [x, y]) (evs' ++ tl)
                (write 3 (setOut 2 SENSOR_SERIAL_NUMBER (setOut 1 EXAMINE_VALUE
                  (setOut 0 (toChar (0xf1 + (i : Int))) s))))) tl hlen' hev' rfl
            refine ⟨s', ?_, ?_, h3, ?_⟩
            · have hd0 : (afterRead 2 0 (ReadEvent.data [x, y]) (evs' ++ tl)
                  (write 3 (setOut 2 SENSOR_SERIAL_NUMBER (setOut 1 EXAMINE_VALUE
                    (setOut 0 (toChar (0xf1 + (i : Int))) s))))).datain 0 = x := by
                simp [afterRead, usb_bulk_read, overlay]
              have hd1 : (afterRead 2 0 (ReadEvent.data [x, y]) (evs' ++ tl)
                  (write 3 (setOut 2 SENSOR_SERIAL_NUMBER (setOut 1 EXAMINE_VALUE
                    (setOut 0 (toChar (0xf1 + (i : Int))) s))))).datain 1 = y := by
                simp [afterRead, usb_bulk_read, overlay]
              have hret : ¬ (afterRead 2 0 (ReadEvent.data [x, y]) (evs' ++ tl)
                  (write 3 (setOut 2 SENSOR_SERIAL_NUMBER (setOut 1 EXAMINE_VALUE
                    (setOut 0 (toChar (0xf1 + (i : Int))) s))))).ret < 0 := by
                simp [afterRead, usb_bulk_read]
              simp only [hret, if_false, hd0, hd1, hxy, if_true]
              rw [h1, List.countP_cons_of_pos]
              · push_cast
                rw [add_assoc, add_comm (1 : Int)]
              · simpa [serialNonzero] using hxy
            · rw [h2]
              simp [afterRead, usb_bulk_read, write, setOut, probeFrame, frame, setAt,
                List.range_succ]
            · rw [h4]
              simp [afterRead, usb_bulk_read, write, setOut]
              omega
          · obtain ⟨s', h1, h2, h3, h4⟩ := ih evs' n
              (afterRead 2 0 (ReadEvent.data [x, y]) (evs' ++ tl)
                (write 3 (setOut 2 SENSOR_SERIAL_NUMBER (setOut 1 EXAMINE_VALUE
                  (setOut 0 (toChar (0xf1 + (i : Int))) s))))) tl hlen' hev' rfl
            refine ⟨s', ?_, ?_, h3, ?_⟩
            · have hd0 : (afterRead 2 0 (ReadEvent.data [x, y]) (evs' ++ tl)
                  (write 3 (setOut 2 SENSOR_SERIAL_NUMBER (setOut 1 EXAMINE_VALUE
                    (setOut 0 (toChar (0xf1 + (i : Int))) s))))).datain 0 = x := by
                simp [afterRead, usb_bulk_read, overlay]
              have hd1 : (afterRead 2 0 (ReadEvent.data [x, y]) (evs' ++ tl)
                  (write 3 (setOut 2 SENSOR_SERIAL_NUMBER (setOut 1 EXAMINE_VALUE
                    (setOut 0 (toChar (0xf1 + (i : Int))) s))))).datain 1 = y := by
                simp [afterRead, usb_bulk_read, overlay]
              have hret : ¬ (afterRead 2 0 (ReadEvent.data [x, y]) (evs' ++ tl)
                  (write 3 (setOut 2 SENSOR_SERIAL_NUMBER (setOut 1 EXAMINE_VALUE
                    (setOut 0 (toChar (0xf1 + (i : Int))) s))))).ret < 0 := by
                simp [afterRead, usb_bulk_read]
              simp only [hret, if_false, hd0, hd1, hxy]
              rw [h1, List.countP_cons_of_neg]
              simpa [serialNonzero] using hxy
            · rw [h2]
              simp [afterRead, usb_bulk_read, write, setOut, probeFrame, frame, setAt,
                List.range_succ]
            · rw [h4]
              simp [afterRead, usb_bulk_read, write, setOut]
              omega

/-- C8: when each of the next four `usb_bulk_read` calls either fails or returns 2
bytes, `getNumberOfSensors` writes the frames `[0xF1 + id, 0x4F, 0x1A]` for
`id = 0, 1, 2, 3` in that order, makes all four reads whatever failed, and returns
the number of reads that succeeded with two bytes not both zero. -/
theorem getNumberOfSensors_counts (s : Session) (e0 e1 e2 e3 : ReadEvent)
    (tl : List ReadEvent)
    (hev : ∀ ev ∈ [e0, e1, e2, e3],
      (∃ e, ev = ReadEvent.fail e) ∨ (∃ x y, ev = ReadEvent.data [x, y]))
    (hrd : s.rd = e0 :: e1 :: e2 :: e3 :: tl) :
    ∃ s', getNumberOfSensors s
        = Outcome.done (([e0, e1, e2, e3].countP serialNonzero : Nat) : Int) s' ∧
      s'.sent = s.sent ++
        [[0xF1, 0x4F, 0x1A], [0xF2, 0x4F, 0x1A], [0xF3, 0x4F, 0x1A], [0xF4, 0x4F, 0x1A]] ∧
      s'.rd = tl ∧ s'.nread = s.nread + 4 := by
  obtain ⟨s', h1, h2, h3, h4⟩ := probeSensors_count [0, 1, 2, 3] [e0, e1, e2, e3] 0 s tl rfl hev
    (by simpa using hrd)
  refine ⟨s', ?_, ?_, h3, h4⟩
  · rw [getNumberOfSensors, h1, zero_add]
  · rw [h2]
    rfl

/-- C8 witness: sensors 0 and 2 report nonzero serials, 1 and 3 report zero: the
count is 2. -/
theorem getNumberOfSensors_counts_witness :
    (quiet 3 [ReadEvent.data [0x12, 0x34], ReadEvent.data [0, 0],
              ReadEvent.data [0, 0x01], ReadEvent.data [0, 0]]).rd
      = ReadEvent.data [0x12, 0x34] :: ReadEvent.data [0, 0] ::
        ReadEvent.data [0, 0x01] :: ReadEvent.data [0, 0] :: [] ∧
    ∃ s', getNumberOfSensors
        (quiet 3 [ReadEvent.data [0x12, 0x34], ReadEvent.data [0, 0],
                  ReadEvent.data [0, 0x01], ReadEvent.data [0, 0]])
      = Outcome.done 2 s' := by
  refine ⟨rfl, ?_⟩
  obtain ⟨s', h, _⟩ := getNumberOfSensors_counts
    (quiet 3 [ReadEvent.data [0x12, 0x34], ReadEvent.data [0, 0],
              ReadEvent.data [0, 0x01], ReadEvent.data [0, 0]])
    (ReadEvent.data [0x12, 0x34]) (ReadEvent.data [0, 0])
    (ReadEvent.data [0, 0x01]) (ReadEvent.data [0, 0]) []
    (by
      intro ev hev
      simp only [List.mem_cons, List.mem_singleton, List.not_mem_nil, or_false] at hev
      rcases hev with rfl | rfl | rfl | rfl <;> exact Or.inr ⟨_, _, rfl⟩)
    rfl
  exact ⟨s', h⟩

/-! ## C9 -/

theorem setMeasurementRate_sent (cs : Bool) (dRate : ℚ) (s : Session) :
    (setMeasurementRate cs dRate s).state.sent = s.sent ++
      [[CHANGE_VALUE, MEASUREMENT_RATE,
        charOfWord (sext16 (shortOfInt (truncToInt (dRate * 256))) &&& 0xff),
        charOfWord (sar32 (sext16 (shortOfInt (truncToInt (dRate * 256)))) 8)],
       [EXAMINE_VALUE, BIRD_ERROR_CODE]] := by
  unfold setMeasurementRate
  simp only [check_bird_errors_sent]
  simp [write, setOut, frame, setAt, List.range_succ]

theorem rate_bytes (v : Nat) (hv : v < 32768) :
    (charOfWord (sext16 (shortOfInt (v : Int)) &&& 0xff)).val = v &&& 0xff ∧
    (charOfWord (sar32 (sext16 (shortOfInt (v : Int))) 8)).val = v >>> 8 := by
  have h1 : shortOfInt (v : Int) = v := by
    unfold shortOfInt
    omega
  have h2 : sext16 v = v := by
    unfold sext16
    rw [if_pos (by omega)]
  have hff : ∀ n : Nat, n &&& 0xff = n % 256 := by
    intro n
    have h : (0xff : Nat) = 2 ^ 8 - 1 := by norm_num
    rw [h, Nat.and_pow_two_sub_one_eq_mod]
  have h3 : sar32 v 8 = v >>> 8 := by
    unfold sar32
    rw [if_pos (by omega)]
  rw [h1, h2, h3, hff]
  simp only [charOfWord, Nat.shiftRight_eq_div_pow]
  constructor <;> omega

/-- C9 (as stated, refuted): for the rate `3/1024`, where `r * 256 = 0.75` rounds
to 1, `setMeasurementRate` writes the parameter bytes `[0x00, 0x00]`, not
`[0x01, 0x00]`. -/
theorem setMeasurementRate_truncates :
    (0 : ℚ) ≤ 3 / 1024 * 256 ∧ (3 / 1024 * 256 : ℚ) < 32767.5 ∧
    round (3 / 1024 * 256 : ℚ) = 1 ∧
    (setMeasurementRate true (3 / 1024) (quiet 4 [ReadEvent.data [0]])).state.sent
      = [[0x50, 0x07, 0x00, 0x00], [0x4F, 0x0A]] := by
  have ht : truncToInt (3 / 1024 * 256 : ℚ) = 0 := by
    unfold truncToInt
    rw [if_pos (by norm_num), Int.floor_eq_iff]
    norm_num
  refine ⟨by norm_num, by norm_num, ?_, ?_⟩
  · rw [round_eq, Int.floor_eq_iff]
    norm_num
  · rw [setMeasurementRate_sent, ht]
    rfl

/-- C9 (amended): for every rate `r` with `0 <= r*256 < 32767.5`, `setMeasurementRate(r)`
writes the 4-byte frame `[0x50, 0x07, v & 0xff, v >> 8]` where `v` is `r * 256` with
its fraction discarded (`floor`), followed by the error-code query `[0x4F, 0x0A]`. -/
theorem setMeasurementRate_frame (cs : Bool) (r : ℚ) (s : Session)
    (hlo : 0 ≤ r * 256) (hhi : r * 256 < 32767.5) :
    (setMeasurementRate cs r s).state.sent.map (List.map Fin.val)
      = s.sent.map (List.map Fin.val) ++
        [[0x50, 0x07, ⌊r * 256⌋.toNat &&& 0xff, ⌊r * 256⌋.toNat >>> 8], [0x4F, 0x0A]] := by
  have hfl0 : 0 ≤ ⌊r * 256⌋ := Int.floor_nonneg.mpr hlo
  have hfl1 : ⌊r * 256⌋ < 32768 := by
    have h : r * 256 < ((32768 : Int) : ℚ) := by
      refine lt_trans hhi ?_
      norm_num
    exact Int.floor_lt.mpr h
  have hv : (⌊r * 256⌋.toNat : Int) = ⌊r * 256⌋ := Int.toNat_of_nonneg hfl0
  have hvlt : ⌊r * 256⌋.toNat < 32768 := by omega
  have ht : truncToInt (r * 256) = (⌊r * 256⌋.toNat : Int) := by
    unfold truncToInt
    rw [if_pos hlo, hv]
  obtain ⟨hb2, hb3⟩ := rate_bytes ⌊r * 256⌋.toNat hvlt
  rw [setMeasurementRate_sent, ht]
  simp only [List.map_append, List.map_cons, List.map_nil, hb2, hb3]
  rfl

/-- C9 witness: `setMeasurementRate(1.0)` writes `[0x50, 0x07, 0x00, 0x01]`. -/
theorem setMeasurementRate_frame_witness :
    (0 : ℚ) ≤ 1 * 256 ∧ (1 * 256 : ℚ) < 32767.5 ∧
    (setMeasurementRate true 1 (quiet 4 [ReadEvent.data [0]])).state.sent.map (List.map Fin.val)
      = [[0x50, 0x07, 0x00, 0x01], [0x4F, 0x0A]] := by
  have hfl : ⌊(1 * 256 : ℚ)⌋ = 256 := by
    rw [Int.floor_eq_iff]
    norm_num
  have h := setMeasurementRate_frame true 1 (quiet 4 [ReadEvent.data [0]])
    (by norm_num) (by norm_num)
  rw [hfl] at h
  exact ⟨by norm_num, by norm_num, h⟩

/-! ## C7 -/

/-- C7 (the code departs from the claim): (a) when the write of `setSensorQuaternion`
fails with status -1 and the following error-code exchange succeeds with code 0, the
call returns 0 and `isOk` is still true; (b) when the 12-byte POINT response starts
with the byte 3 and the read of the closing error-code query fails, the stale
`datain[0] = 3` is returned as the error code and `isOk` is still true. -/
theorem transport_failures_unnoticed :
    (firstWriteFails [ReadEvent.data [0]]).wr 0 = -1 ∧
    (∃ s', setSensorQuaternion true 0 (firstWriteFails [ReadEvent.data [0]])
        = Outcome.done 0 s' ∧ s'.isOk = true ∧ s'.errs = []) ∧
    status 1 (ReadEvent.fail 0) = -1 ∧
    (∃ out' s', getCoordinatesAngles true 0 ⟨0, 0, 0, 0, 0, 0⟩
        (quiet 2 [ReadEvent.data [3, 0, 0, 0, 0, 0, 0, 0, 0, 0, 0, 0], ReadEvent.fail 0])
        = Outcome.done (3, out') s' ∧ s'.isOk = true ∧ s'.errs = []) := by
  refine ⟨rfl, ?_, rfl, ?_⟩
  · have h := check_bird_errors_value true
      (write 2 (setOut 1 POS_QUAT (setOut 0 (toChar (0xf1 + 0))
        (firstWriteFails [ReadEvent.data [0]])))) 0 0 [] [] rfl (by decide)
    unfold setSensorQuaternion
    simp only [h]
    exact ⟨_, rfl, rfl, rfl⟩
  · rw [getCoordinatesAngles_full true 0 _ _ 0 3 0 0 0 0 0 0 0 0 0 0 0 [ReadEvent.fail 0] rfl,
      check_bird_errors_event true _ 0 (ReadEvent.fail 0) [] rfl (by decide)]
    exact ⟨_, _, rfl, rfl, rfl⟩

/-! ## C6 -/

/-- C6 (as stated, refuted): on a session whose `isOk` is false, `setSensorQuaternion`
still writes its command frame and the error-code query, makes a read, and returns 0. -/
theorem degraded_session_still_transfers :
    (clearOk (quiet 2 [ReadEvent.data [0]])).isOk = false ∧
    (setSensorQuaternion true 0 (clearOk (quiet 2 [ReadEvent.data [0]]))).state.sent
      = [[0xF1, 0x5D], [0x4F, 0x0A]] ∧
    (setSensorQuaternion true 0 (clearOk (quiet 2 [ReadEvent.data [0]]))).state.nread = 1 ∧
    (setSensorQuaternion true 0 (clearOk (quiet 2 [ReadEvent.data [0]]))).value? = some 0 := by
  have h := check_bird_errors_value true
    (write 2 (setOut 1 POS_QUAT (setOut 0 (toChar (0xf1 + 0))
      (clearOk (quiet 2 [ReadEvent.data [0]]))))) 0 0 [] [] rfl (by decide)
  unfold setSensorQuaternion
  simp only [h]
  exact ⟨rfl, rfl, rfl, rfl⟩

/-! ## The scale and the frame log across the public operations -/

theorem keeps_refl (s : Session) : keeps s s := ⟨rfl, Nat.le_refl _⟩

theorem keeps_trans {s t u : Session} (h1 : keeps s t) (h2 : keeps t u) : keeps s u :=
  ⟨h2.1.trans h1.1, Nat.le_trans h1.2 h2.2⟩

theorem grows_keeps {s t u : Session} (h1 : grows s t) (h2 : keeps t u) : grows s u :=
  ⟨h2.1.trans h1.1, Nat.lt_of_lt_of_le h1.2 h2.2⟩

theorem keeps_grows {s t u : Session} (h1 : keeps s t) (h2 : grows t u) : grows s u :=
  ⟨h2.1.trans h1.1, Nat.lt_of_le_of_lt h1.2 h2.2⟩

theorem grows.toKeeps {s t : Session} (h : grows s t) : keeps s t := ⟨h.1, Nat.le_of_lt h.2⟩

theorem read_keeps (n : Nat) (s : Session) : keeps s (read n s).state := by
  obtain ⟨_, h2, h3, _⟩ := read_same n s
  exact ⟨h2, by rw [h3]⟩

theorem error_keeps (v : Int) (s : Session) : keeps s (error v s) := keeps_refl s

theorem write_grows (n : Nat) (s : Session) : grows s (write n s) :=
  ⟨rfl, by simp [write]⟩

theorem setOut_keeps (i : Nat) (v : Byte) (s : Session) : keeps s (setOut i v s) := keeps_refl s

theorem bind_keeps {α β : Type} (s : Session) (o : Outcome α) (f : α → Session → Outcome β)
    (ho : keeps s o.state) (hf : ∀ v t, keeps t (f v t).state) : keeps s (o.bind f).state := by
  cases o with
  | done v t => exact keeps_trans ho (hf v t)
  | exited c t => exact ho
  | blocked t => exact ho

theorem bind_grows {α β : Type} (s : Session) (o : Outcome α) (f : α → Session → Outcome β)
    (ho : grows s o.state) (hf : ∀ v t, keeps t (f v t).state) : grows s (o.bind f).state := by
  cases o with
  | done v t => exact grows_keeps ho (hf v t)
  | exited c t => exact ho
  | blocked t => exact ho

theorem check_bird_errors_grows (cs : Bool) (s : Session) :
    grows s (check_bird_errors cs s).state :=
  ⟨check_bird_errors_posk cs s, by simp [check_bird_errors_sent]⟩

theorem written_keeps (n : Nat) (s t : Session) (h : keeps s t) : keeps s (write n t) :=
  (keeps_grows h (write_grows n t)).toKeeps

theorem written_then_read_grows (n m : Nat) (s t : Session) (h : keeps s t) :
    grows s (read m (write n t)).state :=
  grows_keeps (keeps_grows h (write_grows n t)) (read_keeps m _)

theorem probeSensors_keeps (ids : List Nat) :
    ∀ (n : Int) (s : Session), keeps s (probeSensors ids n s).state := by
  induction ids with
  | nil => intro n s; exact keeps_refl s
  | cons i more ih =>
      intro n s
      have hr := (written_then_read_grows 3 2 s
        (setOut 2 SENSOR_SERIAL_NUMBER (setOut 1 EXAMINE_VALUE
          (setOut 0 (toChar (0xf1 + (i : Int))) s))) ⟨by rfl, by exact Nat.le_refl _⟩).toKeeps
      rw [probeSensors]
      cases hread : read 2 (write 3 (setOut 2 SENSOR_SERIAL_NUMBER (setOut 1 EXAMINE_VALUE
          (setOut 0 (toChar (0xf1 + (i : Int))) s)))) with
      | done v t =>
          rw [hread] at hr
          simp only
          split
          · exact keeps_trans hr (keeps_trans (error_keeps _ t) (ih _ _))
          · split
            · exact keeps_trans hr (ih _ _)
            · exact keeps_trans hr (ih _ _)
      | exited c t => rw [hread] at hr; exact hr
      | blocked t => rw [hread] at hr; exact hr

theorem probeSensors_grows (i : Nat) (more : List Nat) (n : Int) (s : Session) :
    grows s (probeSensors (i :: more) n s).state := by
  have hr := written_then_read_grows 3 2 s
    (setOut 2 SENSOR_SERIAL_NUMBER (setOut 1 EXAMINE_VALUE
      (setOut 0 (toChar (0xf1 + (i : Int))) s))) ⟨by rfl, by exact Nat.le_refl _⟩
  rw [probeSensors]
  cases hread : read 2 (write 3 (setOut 2 SENSOR_SERIAL_NUMBER (setOut 1 EXAMINE_VALUE
      (setOut 0 (toChar (0xf1 + (i : Int))) s)))) with
  | done v t =>
      rw [hread] at hr
      simp only
      split
      · exact grows_keeps hr (keeps_trans (error_keeps _ t) (probeSensors_keeps _ _ _))
      · split
        · exact grows_keeps hr (probeSensors_keeps _ _ _)
        · exact grows_keeps hr (probeSensors_keeps _ _ _)
  | exited c t => rw [hread] at hr; exact hr
  | blocked t => rw [hread] at hr; exact hr

theorem presence_tail_keeps (t : Session) :
    keeps t (if t.ret < 0 then Outcome.done false (error t.ret t)
      else if (t.datain 0).val ≠ 0 ∨ (t.datain 1).val ≠ 0 then Outcome.done true t
      else Outcome.done false t).state := by
  split
  · exact error_keeps _ t
  · split <;> exact keeps_refl t

theorem Op.run_grows (cs : Bool) (op : Op) (s : Session) : grows s (op.run cs s).state := by
  cases op with
  | setSuddenOutputChangeLock i =>
      simp only [Op.run, Outcome.state_map, ATC3DG.setSuddenOutputChangeLock]
      exact keeps_grows (written_keeps 4 s _ ⟨by rfl, by exact Nat.le_refl _⟩) (check_bird_errors_grows cs _)
  | setSensorQuaternion i =>
      simp only [Op.run, Outcome.state_map, ATC3DG.setSensorQuaternion]
      exact keeps_grows (written_keeps 2 s _ ⟨by rfl, by exact Nat.le_refl _⟩) (check_bird_errors_grows cs _)
  | setSensorRotMat i =>
      simp only [Op.run, Outcome.state_map, ATC3DG.setSensorRotMat]
      exact keeps_grows (written_keeps 2 s _ ⟨by rfl, by exact Nat.le_refl _⟩) (check_bird_errors_grows cs _)
  | setSensorTopHemisphere i =>
      simp only [Op.run, Outcome.state_map, ATC3DG.setSensorTopHemisphere]
      exact check_bird_errors_grows cs _
  | setSensorHemisphere i c =>
      simp only [Op.run, Outcome.state_map, ATC3DG.setSensorHemisphere]
      exact check_bird_errors_grows cs _
  | setMeasurementRate r =>
      simp only [Op.run, Outcome.state_map, ATC3DG.setMeasurementRate]
      exact keeps_grows (written_keeps 4 s _ ⟨by rfl, by exact Nat.le_refl _⟩) (check_bird_errors_grows cs _)
  | getNumberOfSensors =>
      simp only [Op.run, Outcome.state_map, ATC3DG.getNumberOfSensors]
      exact probeSensors_grows _ _ _ _
  | getCoordinatesAngles i out =>
      simp only [Op.run, Outcome.state_map, ATC3DG.getCoordinatesAngles]
      refine bind_grows s _ _ (written_then_read_grows 2 12 s _ ⟨by rfl, by exact Nat.le_refl _⟩) ?_
      intro _ t
      split
      · rw [Outcome.state_map]
        exact (check_bird_errors_grows cs t).toKeeps
      · exact error_keeps _ t
  | getCoordinatesMatrix i out =>
      simp only [Op.run, Outcome.state_map, ATC3DG.getCoordinatesMatrix]
      refine bind_grows s _ _ (written_then_read_grows 2 24 s _ ⟨by rfl, by exact Nat.le_refl _⟩) ?_
      intro _ t
      split
      · rw [Outcome.state_map]
        exact (check_bird_errors_grows cs t).toKeeps
      · exact error_keeps _ t
  | getCoordinatesQuaternion i out =>
      simp only [Op.run, Outcome.state_map, ATC3DG.getCoordinatesQuaternion]
      refine bind_grows s _ _ (written_then_read_grows 2 14 s _ ⟨by rfl, by exact Nat.le_refl _⟩) ?_
      intro _ t
      split
      · rw [Outcome.state_map]
        exact (check_bird_errors_grows cs t).toKeeps
      · exact error_keeps _ t
  | transmitterAttached =>
      simp only [Op.run, Outcome.state_map, ATC3DG.transmitterAttached]
      exact bind_grows s _ _ (written_then_read_grows 2 2 s _ ⟨by rfl, by exact Nat.le_refl _⟩)
        (fun _ t => presence_tail_keeps t)
  | sensorAttached i =>
      simp only [Op.run, Outcome.state_map, ATC3DG.sensorAttached]
      exact bind_grows s _ _ (written_then_read_grows 3 2 s _ ⟨by rfl, by exact Nat.le_refl _⟩)
        (fun _ t => presence_tail_keeps t)
  | check_bird_errors =>
      simp only [Op.run, Outcome.state_map]
      exact check_bird_errors_grows cs _

/-! ## The `isOk` flag is never consulted -/

theorem clearOk_ret (s : Session) : (clearOk s).ret = s.ret := rfl

theorem clearOk_datain (s : Session) : (clearOk s).datain = s.datain := rfl

theorem clearOk_posk (s : Session) : (clearOk s).posk = s.posk := rfl

theorem clearOk_error (v : Int) (s : Session) : error v (clearOk s) = clearOk (error v s) := rfl

theorem usb_bulk_read_clearOk (n : Nat) (ev : ReadEvent) (s : Session) :
    usb_bulk_read n ev (clearOk s) = clearOk (usb_bulk_read n ev s) := by
  cases ev <;> rfl

theorem readLoop_clearOk (n : Nat) (evs : List ReadEvent) (s : Session) :
    readLoop n evs (clearOk s) = (readLoop n evs s).mapState clearOk := by
  induction evs generalizing s with
  | nil => rfl
  | cons ev tl ih =>
      rw [readLoop, readLoop, usb_bulk_read_clearOk, clearOk_ret]
      split
      · exact ih { usb_bulk_read n ev s with rd := tl }
      · rfl

theorem read_clearOk (n : Nat) (s : Session) :
    read n (clearOk s) = (read n s).mapState clearOk :=
  readLoop_clearOk n s.rd s

theorem classifyReply_clearOk (cs : Bool) (s : Session) :
    classifyReply cs (clearOk s) = (classifyReply cs s).mapState clearOk := by
  unfold classifyReply
  rw [clearOk_datain]
  split
  · rfl
  · split <;> rfl

theorem Outcome.bind_mapState {α β : Type} (g : Session → Session) (o : Outcome α)
    (f : α → Session → Outcome β) (hf : ∀ v t, f v (g t) = (f v t).mapState g) :
    (o.mapState g).bind f = (o.bind f).mapState g := by
  cases o with
  | done v t => exact hf v t
  | exited c t => rfl
  | blocked t => rfl

theorem Outcome.map_mapState {α β : Type} (g : Session → Session) (f : α → β)
    (o : Outcome α) : (o.mapState g).map f = (o.map f).mapState g := by
  cases o <;> rfl

theorem check_bird_errors_clearOk (cs : Bool) (s : Session) :
    check_bird_errors cs (clearOk s) = (check_bird_errors cs s).mapState clearOk := by
  unfold check_bird_errors
  show (read 1 (clearOk (write 2 (setOut 1 BIRD_ERROR_CODE (setOut 0 EXAMINE_VALUE s))))).bind _
    = _
  rw [read_clearOk]
  exact Outcome.bind_mapState clearOk _ _ (fun _ t => classifyReply_clearOk cs t)

theorem probeSensors_clearOk (ids : List Nat) :
    ∀ (n : Int) (s : Session),
      probeSensors ids n (clearOk s) = (probeSensors ids n s).mapState clearOk := by
  induction ids with
  | nil => intro n s; rfl
  | cons i more ih =>
      intro n s
      rw [probeSensors, probeSensors]
      have hr := read_clearOk 2 (write 3 (setOut 2 SENSOR_SERIAL_NUMBER
        (setOut 1 EXAMINE_VALUE (setOut 0 (toChar (0xf1 + (i : Int))) s))))
      have hr' : read 2 (write 3 (setOut 2 SENSOR_SERIAL_NUMBER
          (setOut 1 EXAMINE_VALUE (setOut 0 (toChar (0xf1 + (i : Int))) (clearOk s)))))
        = (read 2 (write 3 (setOut 2 SENSOR_SERIAL_NUMBER
          (setOut 1 EXAMINE_VALUE (setOut 0 (toChar (0xf1 + (i : Int))) s))))).mapState
            clearOk := hr
      rw [hr']
      cases read 2 (write 3 (setOut 2 SENSOR_SERIAL_NUMBER
          (setOut 1 EXAMINE_VALUE (setOut 0 (toChar (0xf1 + (i : Int))) s)))) with
      | done v t =>
          simp only [Outcome.mapState, clearOk_ret, clearOk_datain, clearOk_error]
          split
          · exact ih _ _
          · split
            · exact ih _ _
            · exact ih _ _
      | exited c t => rfl
      | blocked t => rfl

theorem presence_tail_clearOk (t : Session) :
    (if (clearOk t).ret < 0 then Outcome.done false (error (clearOk t).ret (clearOk t))
      else if ((clearOk t).datain 0).val ≠ 0 ∨ ((clearOk t).datain 1).val ≠ 0 then
        Outcome.done true (clearOk t)
      else Outcome.done false (clearOk t))
    = (if t.ret < 0 then Outcome.done false (error t.ret t)
      else if (t.datain 0).val ≠ 0 ∨ (t.datain 1).val ≠ 0 then Outcome.done true t
      else Outcome.done false t).mapState clearOk := by
  simp only [clearOk_ret, clearOk_datain, clearOk_error]
  split
  · rfl
  · split <;> rfl

theorem setSuddenOutputChangeLock_clearOk (cs : Bool) (i : Int) (s : Session) :
    setSuddenOutputChangeLock cs i (clearOk s)
      = (setSuddenOutputChangeLock cs i s).mapState clearOk :=
  check_bird_errors_clearOk cs (write 4 (setOut 3 0x01 (setOut 2 SUDDEN_OUTPUT_CHANGE_LOCK
    (setOut 1 CHANGE_VALUE (setOut 0 (toChar (0xf1 + i)) s)))))

theorem setSensorQuaternion_clearOk (cs : Bool) (i : Int) (s : Session) :
    setSensorQuaternion cs i (clearOk s) = (setSensorQuaternion cs i s).mapState clearOk :=
  check_bird_errors_clearOk cs (write 2 (setOut 1 POS_QUAT (setOut 0 (toChar (0xf1 + i)) s)))

theorem setSensorRotMat_clearOk (cs : Bool) (i : Int) (s : Session) :
    setSensorRotMat cs i (clearOk s) = (setSensorRotMat cs i s).mapState clearOk :=
  check_bird_errors_clearOk cs (write 2 (setOut 1 POS_MAT (setOut 0 (toChar (0xf1 + i)) s)))

theorem setMeasurementRate_clearOk (cs : Bool) (r : ℚ) (s : Session) :
    setMeasurementRate cs r (clearOk s) = (setMeasurementRate cs r s).mapState clearOk :=
  check_bird_errors_clearOk cs (write 4
    (setOut 3 (charOfWord (sar32 (sext16 (shortOfInt (truncToInt (r * 256)))) 8))
      (setOut 2 (charOfWord (sext16 (shortOfInt (truncToInt (r * 256))) &&& 0xff))
        (setOut 1 MEASUREMENT_RATE (setOut 0 CHANGE_VALUE s)))))

theorem transmitterAttached_clearOk (s : Session) :
    transmitterAttached (clearOk s) = (transmitterAttached s).mapState clearOk := by
  unfold transmitterAttached
  show (read 2 (clearOk (write 2 (setOut 1 TRANSMITTER_SERIAL_NUMBER
    (setOut 0 EXAMINE_VALUE s))))).bind _ = _
  rw [read_clearOk]
  exact Outcome.bind_mapState clearOk _ _ (fun _ t => presence_tail_clearOk t)

theorem sensorAttached_clearOk (i : Int) (s : Session) :
    sensorAttached i (clearOk s) = (sensorAttached i s).mapState clearOk := by
  unfold sensorAttached
  show (read 2 (clearOk (write 3 (setOut 2 SENSOR_SERIAL_NUMBER (setOut 1 EXAMINE_VALUE
    (setOut 0 (toChar (0xf1 + i)) s)))))).bind _ = _
  rw [read_clearOk]
  exact Outcome.bind_mapState clearOk _ _ (fun _ t => presence_tail_clearOk t)

theorem getCoordinatesAngles_clearOk (cs : Bool) (i : Int) (out : EulerOut) (s : Session) :
    getCoordinatesAngles cs i out (clearOk s)
      = (getCoordinatesAngles cs i out s).mapState clearOk := by
  unfold getCoordinatesAngles
  show (read 12 (clearOk (write 2 (setOut 1 POINT (setOut 0 (toChar (0xf1 + i)) s))))).bind _
    = _
  rw [read_clearOk]
  refine Outcome.bind_mapState clearOk _ _ ?_
  intro _ t
  simp only [clearOk_ret, clearOk_datain, clearOk_posk, clearOk_error]
  split
  · rw [check_bird_errors_clearOk, Outcome.map_mapState]
  · rfl

theorem getCoordinatesMatrix_clearOk (cs : Bool) (i : Int) (out : ArrayOut) (s : Session) :
    getCoordinatesMatrix cs i out (clearOk s)
      = (getCoordinatesMatrix cs i out s).mapState clearOk := by
  unfold getCoordinatesMatrix
  show (read 24 (clearOk (write 2 (setOut 1 POINT (setOut 0 (toChar (0xf1 + i)) s))))).bind _
    = _
  rw [read_clearOk]
  refine Outcome.bind_mapState clearOk _ _ ?_
  intro _ t
  simp only [clearOk_ret, clearOk_datain, clearOk_posk, clearOk_error]
  split
  · rw [check_bird_errors_clearOk, Outcome.map_mapState]
  · rfl

theorem getCoordinatesQuaternion_clearOk (cs : Bool) (i : Int) (out : ArrayOut)
    (s : Session) :
    getCoordinatesQuaternion cs i out (clearOk s)
      = (getCoordinatesQuaternion cs i out s).mapState clearOk := by
  unfold getCoordinatesQuaternion
  show (read 14 (clearOk (write 2 (setOut 1 POINT (setOut 0 (toChar (0xf1 + i)) s))))).bind _
    = _
  rw [read_clearOk]
  refine Outcome.bind_mapState clearOk _ _ ?_
  intro _ t
  simp only [clearOk_ret, clearOk_datain, clearOk_posk, clearOk_error]
  split
  · rw [check_bird_errors_clearOk, Outcome.map_mapState]
  · rfl

theorem Op.run_clearOk (cs : Bool) (op : Op) (s : Session) :
    op.run cs (clearOk s) = (op.run cs s).mapState clearOk := by
  cases op with
  | setSuddenOutputChangeLock i =>
      simp only [Op.run, setSuddenOutputChangeLock_clearOk, Outcome.map_mapState]
  | setSensorQuaternion i =>
      simp only [Op.run, setSensorQuaternion_clearOk, Outcome.map_mapState]
  | setSensorRotMat i =>
      simp only [Op.run, setSensorRotMat_clearOk, Outcome.map_mapState]
  | setSensorTopHemisphere i =>
      simp only [Op.run, ATC3DG.setSensorTopHemisphere, check_bird_errors_clearOk,
        Outcome.map_mapState]
  | setSensorHemisphere i c =>
      simp only [Op.run, ATC3DG.setSensorHemisphere, check_bird_errors_clearOk,
        Outcome.map_mapState]
  | setMeasurementRate r =>
      simp only [Op.run, setMeasurementRate_clearOk, Outcome.map_mapState]
  | getNumberOfSensors =>
      simp only [Op.run, ATC3DG.getNumberOfSensors, probeSensors_clearOk, Outcome.map_mapState]
  | getCoordinatesAngles i out =>
      simp only [Op.run, getCoordinatesAngles_clearOk, Outcome.map_mapState]
  | getCoordinatesMatrix i out =>
      simp only [Op.run, getCoordinatesMatrix_clearOk, Outcome.map_mapState]
  | getCoordinatesQuaternion i out =>
      simp only [Op.run, getCoordinatesQuaternion_clearOk, Outcome.map_mapState]
  | transmitterAttached =>
      simp only [Op.run, transmitterAttached_clearOk, Outcome.map_mapState]
  | sensorAttached i =>
      simp only [Op.run, sensorAttached_clearOk, Outcome.map_mapState]
  | check_bird_errors =>
      simp only [Op.run, check_bird_errors_clearOk, Outcome.map_mapState]

/-- C6 (amended): no public operation consults `isOk`: run on the session with the
flag cleared, every operation other than the health query ends the same way, with the
same returned value, the same transport writes and reads and the same final members as
on the session with the flag as it was, apart from the flag itself; and in every case
it issues at least one transport write. -/
theorem ops_ignore_isOk (cs : Bool) (op : Op) (s : Session) :
    op.run cs (clearOk s) = (op.run cs s).mapState clearOk ∧
    (clearOk s).sent.length < (op.run cs (clearOk s)).state.sent.length :=
  ⟨Op.run_clearOk cs op s, (Op.run_grows cs op (clearOk s)).2⟩

/-! ## C10 -/

theorem status_zero (n : Nat) (hn : 0 < n) (ev : ReadEvent) (h : status n ev = 0) :
    ev = ReadEvent.data [] := by
  cases ev with
  | data bs =>
      cases bs with
      | nil => rfl
      | cons b rest =>
          cases n with
          | zero => omega
          | succ m => simp [status] at h; omega
  | fail e => simp [status] at h

theorem readLoop_done_shape (n : Nat) (hn : 0 < n) (evs : List ReadEvent) :
    ∀ (s s' : Session), readLoop n evs s = Outcome.done () s' →
      ∃ k ev tl, evs = List.replicate k (ReadEvent.data []) ++ ev :: tl ∧ status n ev ≠ 0 := by
  induction evs with
  | nil => intro s s' h; simp [readLoop] at h
  | cons ev tl ih =>
      intro s s' h
      rw [readLoop] at h
      split at h
      · rename_i h0
        rw [usb_bulk_read_ret] at h0
        have hev := status_zero n hn ev h0
        obtain ⟨k, ev', tl', htl, hst⟩ := ih _ _ h
        refine ⟨k + 1, ev', tl', ?_, hst⟩
        rw [hev, htl, List.replicate_succ, List.cons_append]
      · rename_i h0
        rw [usb_bulk_read_ret] at h0
        exact ⟨0, ev, tl, by simp, h0⟩

theorem read_done_inv (n : Nat) (hn : 0 < n) (s s' : Session)
    (h : read n s = Outcome.done () s') :
    ∃ k ev tl, s.rd = List.replicate k (ReadEvent.data []) ++ ev :: tl ∧ status n ev ≠ 0 ∧
      s' = afterRead n k ev tl s := by
  obtain ⟨k, ev, tl, hrd, hst⟩ := readLoop_done_shape n hn s.rd s s' h
  refine ⟨k, ev, tl, hrd, hst, ?_⟩
  have h2 := read_event n k ev tl s hrd hst
  rw [h] at h2
  simp only [Outcome.done.injEq, true_and] at h2
  exact h2

theorem check_bird_errors_done_posk (cs : Bool) (s : Session) (r : Int) (s' : Session)
    (h : check_bird_errors cs s = Outcome.done r s') : s'.posk = s.posk := by
  have hp := check_bird_errors_posk cs s
  rw [h] at hp
  exact hp

theorem queryScaling_done (cs : Bool) (s s' : Session)
    (h : queryScaling cs s = Outcome.done () s') (hok : s'.isOk = true) :
    ∃ k b0 rest tl,
      s.rd = List.replicate k (ReadEvent.data []) ++ ReadEvent.data (b0 :: rest) :: tl ∧
      s'.posk = if b0.val = 1 then POSK72 else POSK36 := by
  unfold queryScaling at h
  simp only at h
  cases hr : read 2 (write 2 (setOut 1 BIRD_POSITION_SCALING (setOut 0 EXAMINE_VALUE s))) with
  | exited c t => rw [hr] at h; simp [Outcome.bind] at h
  | blocked t => rw [hr] at h; simp [Outcome.bind] at h
  | done v t =>
      rw [hr] at h
      simp only [Outcome.bind] at h
      obtain ⟨k, ev, tl, hrd, hst, ht⟩ := read_done_inv 2 (by norm_num) _ _ hr
      have hrd' : s.rd = List.replicate k (ReadEvent.data []) ++ ev :: tl := hrd
      split at h
      · simp only [Outcome.done.injEq, true_and] at h
        rw [← h] at hok
        simp [error] at hok
      · rename_i hneg
        cases ev with
        | fail e =>
            exfalso
            apply hneg
            rw [ht]
            simp [afterRead, usb_bulk_read, Int.negSucc_lt_zero]
        | data bs =>
            cases bs with
            | nil => simp [status] at hst
            | cons b0 rest =>
                refine ⟨k, b0, rest, tl, hrd', ?_⟩
                obtain ⟨r, hcb, _⟩ := Outcome.map_done_inv _ _ _ _ h
                rw [check_bird_errors_done_posk cs _ r s' hcb]
                have hb0 : t.datain 0 = b0 := by
                  rw [ht]
                  simp [afterRead, usb_bulk_read, overlay]
                rw [hb0]
                split <;> rfl

theorem POSK36_ne_POSK72 : POSK36 ≠ POSK72 := by
  norm_num [POSK36, POSK72, WTF, INCH_TO_METER]

theorem construct_done (cs : Bool) (u : UsbSetup) (s s' : Session)
    (h : construct cs u s = Outcome.done () s') (hok : s'.isOk = true) :
    ∃ e0 k b0 rest tl,
      s.rd = e0 :: (List.replicate k (ReadEvent.data []) ++ ReadEvent.data (b0 :: rest) :: tl) ∧
      s'.posk = if b0.val = 1 then POSK72 else POSK36 := by
  have hbad : ∀ (v : Int) (t : Session), Outcome.done () (error v t) = Outcome.done () s' →
      False := by
    intro v t ht
    simp only [Outcome.done.injEq, true_and] at ht
    rw [← ht] at hok
    simp [error] at hok
  unfold construct at h
  simp only at h
  split at h
  · exact (hbad _ _ h).elim
  · split at h
    · exact (hbad _ _ h).elim
    · split at h
      · exact (hbad _ _ h).elim
      · split at h
        · exact (hbad _ _ h).elim
        · split at h
          · exact (hbad _ _ h).elim
          · split at h
            · exact (hbad _ _ h).elim
            · split at h
              · exact (hbad _ _ h).elim
              · obtain ⟨k, b0, rest, tl, hrd, hp⟩ := queryScaling_done cs _ s' h hok
                cases hs : s.rd with
                | nil =>
                    simp [write, setOut, readOnce, hs, usb_bulk_read] at hrd
                | cons e0 tl0 =>
                    refine ⟨e0, k, b0, rest, tl, ?_, hp⟩
                    simp [write, setOut, readOnce, hs, usb_bulk_read] at hrd
                    rw [← hrd]

/-- C10: when the constructor returns with `isOk` true, the script of reads began
with the discarded first read, then (after any number of zero-length reads) the
scaling reply with first byte `b0`, and `posk` is `POSK36` or `POSK72`, `POSK72`
exactly when `b0` is 1; and every public operation, whatever the bus does and however
the run ends, leaves `posk` as it was. -/
theorem posk_fixed (cs : Bool) (u : UsbSetup) (s s' : Session)
    (h : construct cs u s = Outcome.done () s') (hok : s'.isOk = true) :
    ((s'.posk = POSK36 ∨ s'.posk = POSK72) ∧
      ∃ e0 k b0 rest tl,
        s.rd = e0 ::
          (List.replicate k (ReadEvent.data []) ++ ReadEvent.data (b0 :: rest) :: tl) ∧
        (s'.posk = POSK72 ↔ b0.val = 1)) ∧
    POSK36 = 36 / 32768 * 0.0254 ∧ POSK72 = 72 / 32768 * 0.0254 ∧
    (∀ (op : Op) (t : Session), (op.run cs t).state.posk = t.posk) := by
  obtain ⟨e0, k, b0, rest, tl, hrd, hp⟩ := construct_done cs u s s' h hok
  refine ⟨⟨?_, e0, k, b0, rest, tl, hrd, ?_⟩, ?_, ?_, ?_⟩
  · rw [hp]
    split
    · exact Or.inr rfl
    · exact Or.inl rfl
  · rw [hp]
    by_cases hb : b0.val = 1
    · simp [hb]
    · simp [hb, POSK36_ne_POSK72]
  · norm_num [POSK36, WTF, INCH_TO_METER]
  · norm_num [POSK72, WTF, INCH_TO_METER]
  · intro op t
    exact (Op.run_grows cs op t).1

/-- C10 witness: a construction whose scaling reply starts with the byte 1 ends with
`isOk` true and `posk = POSK72`. -/
theorem posk_fixed_witness :
    ∃ s', construct true goodSetup
        (quiet 3 [ReadEvent.data [], ReadEvent.data [1, 0], ReadEvent.data [0]])
      = Outcome.done () s' ∧ s'.isOk = true ∧
      (s'.posk = POSK36 ∨ s'.posk = POSK72) ∧ s'.posk = POSK72 := by
  have hdone : construct true goodSetup
      (quiet 3 [ReadEvent.data [], ReadEvent.data [1, 0], ReadEvent.data [0]])
      = Outcome.done () (construct true goodSetup
        (quiet 3 [ReadEvent.data [], ReadEvent.data [1, 0], ReadEvent.data [0]])).state := by
    rfl
  have hok : (construct true goodSetup
      (quiet 3 [ReadEvent.data [], ReadEvent.data [1, 0], ReadEvent.data [0]])).state.isOk
      = true := by
    rfl
  exact ⟨_, hdone, hok, (posk_fixed true goodSetup _ _ hdone hok).1.1, rfl⟩

end ATC3DG
